import Mathlib

/-!
The openai-proxy: translation layer, stream relay and error classifier

A shallow embedding of `pkg/adapter/struct.go`, `pkg/adapter/chat.go` and
`api/handler.go`.  Go structs become Lean structures, Go `(value, error)`
results become `Except`, `for ... range` loops become recursive functions with
the loop variables as arguments, and the goroutine that feeds the event
channel becomes a function from the results of the backend reads to the trace
of what it sent.
-/

set_option autoImplicit false

namespace OpenaiProxy

/-! ## Library types used by the source -/

/-- A Go value of interface type `any`, as far as `openai.APIError.Code` can
hold one: nil, an `int`, a `string`, or a `float64` kept as its bit pattern. -/
inductive GoAny where
  | nil
  | int (n : Int)
  | string (s : String)
  | float64 (bits : Nat)
  deriving DecidableEq, Repr, Inhabited

/-- The struct `openai.APIError` (go-openai): the error envelope sent to clients. -/
structure APIError where
  Code : GoAny := GoAny.nil
  Message : String := ""
  Param : Option String := none
  Type_ : String := ""
  HTTPStatus : String := ""
  HTTPStatusCode : Int := 0
  deriving DecidableEq, Repr, Inhabited

/-- The struct `googleapi.Error`: status code and message of a backend
transport or quota failure. -/
structure GoogleError where
  Code : Int := 0
  Message : String := ""
  Body : String := ""
  deriving DecidableEq, Repr, Inhabited

/-- A Go `error` value: the concrete error at the head of the chain, with the
text its `Error()` method returns, and the chain reached through `Unwrap`. -/
inductive GoError where
  /-- The sentinel `io.EOF`. -/
  | eof
  /-- An error made by `errors.New` or any other type without special meaning. -/
  | plain (text : String)
  /-- A value of type `*openai.APIError`; `text` is what its `Error()` returns. -/
  | api (e : APIError) (text : String)
  /-- A value of type `*googleapi.Error`; `text` is what its `Error()` returns. -/
  | google (e : GoogleError) (text : String)
  /-- A value of type `*googleapi.Error` that wraps another error: its `Unwrap`
  method returns `inner`. -/
  | googleWrap (e : GoogleError) (text : String) (inner : GoError)
  /-- An error that wraps another one (`fmt.Errorf` with `%w`, `errors.Wrap`). -/
  | wrap (text : String) (inner : GoError)
  deriving DecidableEq, Repr, Inhabited

namespace GoError

/-- The method `err.Error()`. -/
def Error : GoError → String
  | eof => "EOF"
  | plain text => text
  | api _ text => text
  | google _ text => text
  | googleWrap _ text _ => text
  | wrap text _ => text

/-- The call `errors.Is(err, io.EOF)`: some error of the chain is `io.EOF`. -/
def isEOF : GoError → Bool
  | eof => true
  | plain _ => false
  | api _ _ => false
  | google _ _ => false
  | googleWrap _ _ inner => isEOF inner
  | wrap _ inner => isEOF inner

/-- The call `errors.As(err, &openaiErr)` with `openaiErr : *openai.APIError`:
the first error of the chain that has that type. -/
def asAPIError : GoError → Option APIError
  | eof => none
  | plain _ => none
  | api e _ => some e
  | google _ _ => none
  | googleWrap _ _ inner => asAPIError inner
  | wrap _ inner => asAPIError inner

/-- The call `errors.As(err, &googleErr)` with `googleErr : *googleapi.Error`:
the first error of the chain that has that type. -/
def asGoogleError : GoError → Option GoogleError
  | eof => none
  | plain _ => none
  | api _ _ => none
  | google e _ => some e
  | googleWrap e _ _ => some e
  | wrap _ inner => asGoogleError inner

end GoError

/-- The struct `openai.ChatCompletionMessage`, with the fields the proxy sets
and those it leaves at their zero value. -/
structure OpenaiChatCompletionMessage where
  Role : String := ""
  Content : String := ""
  Name : String := ""
  ToolCallID : String := ""
  deriving DecidableEq, Repr, Inhabited

/-- The constants `http.Status...` used by the source. -/
def StatusOK : Int := 200
def StatusBadRequest : Int := 400
def StatusTooManyRequests : Int := 429
def StatusInternalServerError : Int := 500

/-! ## pkg/adapter/struct.go -/

/-- The struct `adapter.ChatCompletionMessage`. -/
structure ChatCompletionMessage where
  Role : String
  Content : String
  deriving DecidableEq, Repr, Inhabited

/-- The struct `adapter.ChatCompletionRequest`.  The `float32` fields are kept
as bit patterns; the source never computes with them. -/
structure ChatCompletionRequest where
  Model : String
  Messages : List ChatCompletionMessage
  MaxTokens : Int := 0
  Temperature : Nat := 0
  TopP : Nat := 0
  N : Int := 0
  Stream : Bool := false
  Stop : List String := []
  deriving DecidableEq, Repr, Inhabited

/-- The loop of `toVisionGenaiContent`: `messages` is the slice built so far,
the list argument is what `range req.Messages` still has to visit. -/
def toVisionGenaiContentLoop :
    List ChatCompletionMessage → List OpenaiChatCompletionMessage → List OpenaiChatCompletionMessage
  | [], messages => messages
  | message :: rest, messages =>
    toVisionGenaiContentLoop rest
      (messages ++ [{ Role := message.Role, Content := message.Content }])

/-- The method `(*ChatCompletionRequest).toVisionGenaiContent`. -/
def ChatCompletionRequest.toVisionGenaiContent (req : ChatCompletionRequest) :
    Except GoError (List OpenaiChatCompletionMessage) :=
  Except.ok (toVisionGenaiContentLoop req.Messages [])

/-- The method `(*ChatCompletionRequest).ToGenaiMessages`.  The constant
`TextEmbeddingBgeM3` is declared outside the files at hand and is a parameter. -/
def ChatCompletionRequest.ToGenaiMessages (TextEmbeddingBgeM3 : String)
    (req : ChatCompletionRequest) : Except GoError (List OpenaiChatCompletionMessage) :=
  if req.Model = TextEmbeddingBgeM3 then
    Except.error (GoError.plain "Chat Completion is not supported for embedding model")
  else
    req.toVisionGenaiContent

/-! ## pkg/adapter/chat.go: response translation -/

/-- The constants of `genai.FinishReason` (an `int32` enumeration). -/
def FinishReasonUnspecified : Int := 0
def FinishReasonStop : Int := 1
def FinishReasonMaxTokens : Int := 2
def FinishReasonSafety : Int := 3
def FinishReasonRecitation : Int := 4
def FinishReasonOther : Int := 5

/-- The constants of `openai.FinishReason` (a string type). -/
def OpenaiFinishReasonStop : String := "stop"
def OpenaiFinishReasonLength : String := "length"
def OpenaiFinishReasonContentFilter : String := "content_filter"

/-- The function `convertFinishReason`. -/
def convertFinishReason (reason : Int) : String :=
  if reason = FinishReasonMaxTokens then OpenaiFinishReasonLength
  else if reason = FinishReasonSafety ∨ reason = FinishReasonRecitation then
    OpenaiFinishReasonContentFilter
  else OpenaiFinishReasonStop

/-- The interface `genai.Part` with the implementations a response can carry. -/
inductive Part where
  | Text (s : String)
  | Blob (MIMEType : String) (Data : List Nat)
  | FunctionCall (Name : String)
  deriving DecidableEq, Repr, Inhabited

/-- The struct `genai.Content`. -/
structure Content where
  Parts : List Part
  Role : String := ""
  deriving DecidableEq, Repr, Inhabited

/-- The struct `genai.Candidate`; `Content` is a pointer and may be nil. -/
structure Candidate where
  Index : Int := 0
  Content : Option Content := none
  FinishReason : Int := 0
  deriving DecidableEq, Repr, Inhabited

/-- The struct `genai.GenerateContentResponse`. -/
structure GenerateContentResponse where
  Candidates : List Candidate
  deriving DecidableEq, Repr, Inhabited

/-- The struct `openai.ChatCompletionChoice`. -/
structure ChatCompletionChoice where
  Index : Nat
  Message : OpenaiChatCompletionMessage
  FinishReason : String
  deriving DecidableEq, Repr, Inhabited

/-- The struct `openai.ChatCompletionResponse`. -/
structure ChatCompletionResponse where
  ID : String := ""
  Object : String := ""
  Created : Int := 0
  Model : String := ""
  Choices : List ChatCompletionChoice := []
  deriving DecidableEq, Repr, Inhabited

/-- The constant `openai.ChatMessageRoleAssistant`. -/
def ChatMessageRoleAssistant : String := "assistant"

/-- The first statements of the loop body of both response translators:
`var content string`, set from the first part when the candidate has content
with a part and that part is a `genai.Text`. -/
def candidateContent (candidate : Candidate) : String :=
  match candidate.Content with
  | none => ""
  | some c =>
    match c.Parts with
    | [] => ""
    | Part.Text s :: _ => s
    | _ :: _ => ""

/-- The loop of `genaiResponseToOpenaiResponse`: `i` is the loop index,
`choices` the slice `resp.Choices` built so far. -/
def genaiResponseToOpenaiResponseLoop :
    Nat → List Candidate → List ChatCompletionChoice → List ChatCompletionChoice
  | _, [], choices => choices
  | i, candidate :: rest, choices =>
    genaiResponseToOpenaiResponseLoop (i + 1) rest
      (choices ++ [{ Index := i
                     Message := { Role := ChatMessageRoleAssistant
                                  Content := candidateContent candidate }
                     FinishReason := convertFinishReason candidate.FinishReason }])

/-- The function `genaiResponseToOpenaiResponse`.  The table lookup
`GetMappedModel`, the fresh identifier `util.GetUUID()` and the clock reading
`time.Now().Unix()` come from outside the files at hand and are parameters. -/
def genaiResponseToOpenaiResponse (GetMappedModel : String → String) (uuid : String)
    (now : Int) (model : String) (genaiResp : GenerateContentResponse) :
    ChatCompletionResponse :=
  { ID := "chatcmpl-" ++ uuid
    Object := "chat.completion"
    Created := now
    Model := GetMappedModel model
    Choices := genaiResponseToOpenaiResponseLoop 0 genaiResp.Candidates [] }

/-! ## pkg/adapter/chat.go: stream relay -/

/-- The struct `openai.ChatCompletionStreamChoiceDelta`. -/
structure ChatCompletionStreamChoiceDelta where
  Content : String := ""
  Role : String := ""
  deriving DecidableEq, Repr, Inhabited

/-- The struct `openai.ChatCompletionStreamChoice`; `FinishReason` is a string type. -/
structure ChatCompletionStreamChoice where
  Index : Int := 0
  Delta : ChatCompletionStreamChoiceDelta := {}
  FinishReason : String := ""
  deriving DecidableEq, Repr, Inhabited

/-- The struct `openai.ChatCompletionStreamResponse`: one chunk of a backend stream. -/
structure OpenaiChatCompletionStreamResponse where
  ID : String := ""
  Object : String := ""
  Created : Int := 0
  Model : String := ""
  Choices : List ChatCompletionStreamChoice := []
  deriving DecidableEq, Repr, Inhabited

/-- The struct `adapter.ChatCompletionStreamResponse`: one event on `dataChan`.
`Err` is a pointer and may be nil. -/
structure ChatCompletionStreamResponse where
  Data : OpenaiChatCompletionStreamResponse := {}
  Err : Option APIError := none
  deriving DecidableEq, Repr, Inhabited

/-- What one call of `stream.Recv()` returns: a chunk with a nil error, or an error. -/
inductive RecvResult where
  | chunk (response : OpenaiChatCompletionStreamResponse)
  | fail (err : GoError)
  deriving DecidableEq, Repr, Inhabited

/-- The state of the relay goroutine as seen from outside: the events it has
sent on `dataChan` (oldest first), how often it has called `stream.Recv()`,
the results the backend stream still holds, and how often `close(dataChan)`
and `stream.Close()` have run. -/
structure Relay where
  sent : List ChatCompletionStreamResponse
  reads : Nat
  unread : List RecvResult
  chanCloses : Nat
  streamCloses : Nat
  deriving DecidableEq, Repr, Inhabited

/-- The test `len(response.Choices) > 0 && response.Choices[0].FinishReason != ""`
that ends the loop of `handleStreamIter`. -/
def firstChoiceFinished (response : OpenaiChatCompletionStreamResponse) : Bool :=
  match response.Choices with
  | [] => false
  | choice :: _ => decide (choice.FinishReason ≠ "")

/-- The `for` loop of `handleStreamIter`.  The backend stream is the list of
the results its successive `Recv` calls return; a stream with nothing left
reports `io.EOF`. -/
def handleStreamIterLoop : List RecvResult → Relay → Relay
  | [], st => { st with reads := st.reads + 1, unread := [] }
  | RecvResult.fail err :: rest, st =>
    if err.isEOF then
      { st with reads := st.reads + 1, unread := rest }
    else
      { st with
        reads := st.reads + 1
        unread := rest
        sent := st.sent ++
          [{ Data := {}
             Err := some { Code := GoAny.int StatusInternalServerError
                           Message := err.Error } }] }
  | RecvResult.chunk response :: rest, st =>
    let st1 : Relay :=
      { st with
        reads := st.reads + 1
        unread := rest
        sent := st.sent ++ [{ Data := response, Err := none }] }
    if firstChoiceFinished response then st1 else handleStreamIterLoop rest st1

/-- The function `handleStreamIter`: the loop, then the two deferred calls
`close(dataChan)` and `stream.Close()`. -/
def handleStreamIter (stream : List RecvResult) : Relay :=
  let st := handleStreamIterLoop stream
    { sent := [], reads := 0, unread := stream, chanCloses := 0, streamCloses := 0 }
  { st with chanCloses := st.chanCloses + 1, streamCloses := st.streamCloses + 1 }

/-! ## api/handler.go -/

/-- The callback given to `c.Stream` in `ChatProxyHandler`, run until it
returns false.  The argument is what the channel still delivers before it is
closed; the result is the `Data` of every `adapter.Event` rendered, in order.
`json.Marshal` of the two payload types is a parameter. -/
def ChatProxyStream (marshalErr : APIError → String)
    (marshalData : OpenaiChatCompletionStreamResponse → String) :
    List ChatCompletionStreamResponse → List String
  | data :: rest =>
    (match data.Err with
      | some e => "data: " ++ marshalErr e
      | none => "data: " ++ marshalData data.Data)
      :: ChatProxyStream marshalErr marshalData rest
  | [] => ["data: [DONE]"]

/-- The call `c.AbortWithStatusJSON(status, body)` that ends `handleGenerateContentError`. -/
structure ErrorResponse where
  status : Int
  body : APIError
  deriving DecidableEq, Repr, Inhabited

/-- The function `handleGenerateContentError`. -/
def handleGenerateContentError (err : GoError) : ErrorResponse :=
  match err.asAPIError with
  | some openaiErr =>
    let statusCode :=
      match openaiErr.Code with
      | GoAny.int code => code
      | _ => StatusInternalServerError
    { status := statusCode, body := openaiErr }
  | none =>
    match err.asGoogleError with
    | some googleErr =>
      let statusCode := googleErr.Code
      if statusCode = StatusTooManyRequests then
        { status := StatusTooManyRequests
          body := { Code := GoAny.int StatusTooManyRequests
                    Message := "Rate limit exceeded"
                    Type_ := "rate_limit_error" } }
      else
        { status := statusCode
          body := { Code := GoAny.int statusCode
                    Message := googleErr.Message
                    Type_ := "server_error" } }
    | none =>
      { status := StatusInternalServerError
        body := { Code := GoAny.int StatusInternalServerError
                  Message := err.Error
                  Type_ := "server_error" } }

/-! ## pkg/adapter/struct.go: embeddings and stream chunks -/

/-- The struct `adapter.EmbeddingRequest`; `Messages` is the JSON field `input`. -/
structure EmbeddingRequest where
  Model : String
  Messages : List String
  EncodingFormat : String := ""
  deriving DecidableEq, Repr, Inhabited

/-- The struct `openai.EmbeddingRequest`; `Input` has type `any` and holds a
slice of strings here. -/
structure OpenaiEmbeddingRequest where
  Input : List String := []
  Model : String := ""
  User : String := ""
  EncodingFormat : String := ""
  Dimensions : Int := 0
  deriving DecidableEq, Repr, Inhabited

/-- The method `(*EmbeddingRequest).ToGenaiMessages`.  The constant
`TextEmbeddingBgeM3` is declared outside the files at hand and is a parameter. -/
def EmbeddingRequest.ToGenaiMessages (TextEmbeddingBgeM3 : String) (req : EmbeddingRequest) :
    Except GoError OpenaiEmbeddingRequest :=
  if req.Model ≠ TextEmbeddingBgeM3 then
    Except.error
      (GoError.plain ("Embedding is not supported for embedding model " ++ req.Model))
  else
    Except.ok
      { Input := req.Messages
        Model := req.Model
        EncodingFormat := req.EncodingFormat }

/-- The anonymous struct of the field `Delta` of `adapter.CompletionChoice`. -/
structure CompletionChoiceDelta where
  Content : String := ""
  deriving DecidableEq, Repr, Inhabited

/-- The struct `adapter.CompletionChoice`; `FinishReason` is a `*string` and may be nil. -/
structure CompletionChoice where
  Index : Nat
  Delta : CompletionChoiceDelta := {}
  FinishReason : Option String := none
  deriving DecidableEq, Repr, Inhabited

/-- The struct `adapter.CompletionResponse`. -/
structure CompletionResponse where
  ID : String
  Object : String
  Created : Int
  Model : String
  Choices : List CompletionChoice
  deriving DecidableEq, Repr, Inhabited

/-! ## pkg/adapter/chat.go: stream chunk translation and backend calls -/

/-- The loop of `genaiResponseToStreamCompletionResponse`: `i` is the loop
index, `choices` the slice `resp.Choices` built so far. -/
def genaiResponseToStreamCompletionResponseLoop :
    Nat → List Candidate → List CompletionChoice → List CompletionChoice
  | _, [], choices => choices
  | i, candidate :: rest, choices =>
    let content := candidateContent candidate
    let choice : CompletionChoice := { Index := i }
    let choice : CompletionChoice := { choice with Delta := { Content := content } }
    let choice : CompletionChoice :=
      if candidate.FinishReason > FinishReasonStop then
        { choice with FinishReason := some (convertFinishReason candidate.FinishReason) }
      else choice
    genaiResponseToStreamCompletionResponseLoop (i + 1) rest (choices ++ [choice])

/-- The function `genaiResponseToStreamCompletionResponse`.  The table lookup
`GetMappedModel` comes from outside the files at hand and is a parameter. -/
def genaiResponseToStreamCompletionResponse (GetMappedModel : String → String)
    (model : String) (genaiResp : GenerateContentResponse) (respID : String) (created : Int) :
    CompletionResponse :=
  { ID := "chatcmpl-" ++ respID
    Object := "chat.completion.chunk"
    Created := created
    Model := GetMappedModel model
    Choices := genaiResponseToStreamCompletionResponseLoop 0 genaiResp.Candidates [] }

/-- The struct `openai.ChatCompletionRequest`: the request sent to the
backend, with the sampling fields a caller may set. -/
structure OpenaiChatCompletionRequest where
  Model : String := ""
  Messages : List OpenaiChatCompletionMessage := []
  MaxTokens : Int := 0
  Temperature : Nat := 0
  TopP : Nat := 0
  N : Int := 0
  Stream : Bool := false
  Stop : List String := []
  deriving DecidableEq, Repr, Inhabited

/-- The struct `openai.EmbeddingResponse`; the vectors are kept as bit patterns. -/
structure EmbeddingResponse where
  Object : String := ""
  Data : List (List Nat) := []
  Model : String := ""
  deriving DecidableEq, Repr, Inhabited

/-- The value `*openai.Client` as the handlers configure it: the credential
and the base URL of the backend. -/
structure OpenaiClient where
  authToken : String
  BaseURL : String
  deriving DecidableEq, Repr, Inhabited

/-- The backend behind `*openai.Client`: what each of the three client methods
the adapter calls returns for a request. -/
structure Backend where
  CreateChatCompletion :
    OpenaiClient → OpenaiChatCompletionRequest → Except GoError ChatCompletionResponse
  CreateChatCompletionStream :
    OpenaiClient → OpenaiChatCompletionRequest → Except GoError (List RecvResult)
  CreateEmbeddings : OpenaiClient → OpenaiEmbeddingRequest → Except GoError EmbeddingResponse

/-- A call made on the backend: the client used and the request passed. -/
inductive BackendCall where
  | chatCompletion (client : OpenaiClient) (request : OpenaiChatCompletionRequest)
  | chatCompletionStream (client : OpenaiClient) (request : OpenaiChatCompletionRequest)
  | embeddings (client : OpenaiClient) (request : OpenaiEmbeddingRequest)
  deriving DecidableEq, Repr, Inhabited

/-- The struct `adapter.GeminiAdapter`. -/
structure GeminiAdapter where
  client : OpenaiClient
  model : String
  deriving DecidableEq, Repr, Inhabited

/-- The function `NewGeminiAdapter`. -/
def NewGeminiAdapter (client : OpenaiClient) (model : String) : GeminiAdapter :=
  { client := client, model := model }

/-- The method `(*GeminiAdapter).GenerateContent`: the call it makes on the
backend, and what it returns. -/
def GeminiAdapter.GenerateContent (g : GeminiAdapter) (backend : Backend)
    (req : ChatCompletionRequest) (messages : List OpenaiChatCompletionMessage) :
    BackendCall × Except GoError ChatCompletionResponse :=
  let request : OpenaiChatCompletionRequest :=
    { Model := req.Model
      Messages := messages
      Stream := false }
  (BackendCall.chatCompletion g.client request,
    match backend.CreateChatCompletion g.client request with
    | Except.error err => Except.error err
    | Except.ok resp => Except.ok resp)

/-- The method `(*GeminiAdapter).GenerateStreamContent`: the call it makes on
the backend, and what it returns, the channel being given by the events the
goroutine `handleStreamIter` sends on it before closing it. -/
def GeminiAdapter.GenerateStreamContent (g : GeminiAdapter) (backend : Backend)
    (req : ChatCompletionRequest) (messages : List OpenaiChatCompletionMessage) :
    BackendCall × Except GoError (List ChatCompletionStreamResponse) :=
  let request : OpenaiChatCompletionRequest :=
    { Model := req.Model
      Messages := messages
      Stream := true }
  (BackendCall.chatCompletionStream g.client request,
    match backend.CreateChatCompletionStream g.client request with
    | Except.error err => Except.error err
    | Except.ok stream => Except.ok (handleStreamIter stream).sent)

/-- The method `(*GeminiAdapter).GenerateEmbedding`: the call it makes on the
backend, and what it returns; `none` stands for the end of the process in
`log.Fatal` when the backend call fails. -/
def GeminiAdapter.GenerateEmbedding (g : GeminiAdapter) (backend : Backend)
    (queryReq : OpenaiEmbeddingRequest) :
    BackendCall × Option (Except GoError EmbeddingResponse) :=
  (BackendCall.embeddings g.client queryReq,
    match backend.CreateEmbeddings g.client queryReq with
    | Except.error _ => none
    | Except.ok queryResponse => some (Except.ok queryResponse))

/-! ## api/handler.go: the handlers -/

/-- The struct `openai.Model`, with the fields the handlers set. -/
structure OpenaiModel where
  CreatedAt : Int := 0
  ID : String := ""
  Object : String := ""
  OwnedBy : String := ""
  deriving DecidableEq, Repr, Inhabited

/-- The body a handler writes with `c.JSON` or `c.AbortWithStatusJSON`. -/
inductive ReplyBody where
  | apiError (e : APIError)
  | completion (resp : ChatCompletionResponse)
  | embedding (resp : EmbeddingResponse)
  | model (m : OpenaiModel)
  deriving DecidableEq, Repr, Inhabited

/-- What a handler does to the client: one JSON answer with its status, an
event stream given by the `Data` of the events rendered, or nothing because
the process ended in `log.Fatal`. -/
inductive Reply where
  | json (status : Int) (body : ReplyBody)
  | eventStream (frames : List String)
  | exited
  deriving DecidableEq, Repr, Inhabited

/-- The run of a proxy handler: the answer to the client and the calls made
on the backend, in order. -/
structure HandlerResult where
  reply : Reply
  calls : List BackendCall
  deriving DecidableEq, Repr, Inhabited

/-- What the handlers take from outside the files at hand: the scan
`fmt.Sscanf(authorizationHeader, "Bearer %s", &openaiAPIKey)` (the key read,
or the error), the constant `TextEmbeddingBgeM3`, the two `ToGenaiModel`
methods, the backend, and `json.Marshal` on the two payloads of an event. -/
structure Env where
  Sscanf : String → Except GoError String
  TextEmbeddingBgeM3 : String
  chatToGenaiModel : ChatCompletionRequest → String
  embeddingToGenaiModel : EmbeddingRequest → String
  backend : Backend
  marshalErr : APIError → String
  marshalData : OpenaiChatCompletionStreamResponse → String

/-- The function `ModelRetrieveHandler`; `model` is `c.Param("model")`, `owner`
the result of `adapter.GetOwner()`. -/
def ModelRetrieveHandler (owner : String) (model : String) : Reply :=
  Reply.json StatusOK
    (ReplyBody.model
      { CreatedAt := 1686935002
        ID := model
        Object := "model"
        OwnedBy := owner })

/-- The answer `c.JSON(http.StatusBadRequest, openai.APIError{...})` of both proxy handlers. -/
def badRequest (err : GoError) : Reply :=
  Reply.json StatusBadRequest
    (ReplyBody.apiError { Code := GoAny.int StatusBadRequest, Message := err.Error })

/-- The answer of a handler that ends with `handleGenerateContentError(c, err)`. -/
def classified (err : GoError) : Reply :=
  Reply.json (handleGenerateContentError err).status
    (ReplyBody.apiError (handleGenerateContentError err).body)

/-- The function `ChatProxyHandler`.  `authorizationHeader` is the header of
the request, `bind` what `c.ShouldBindJSON(req)` makes of its body. -/
def ChatProxyHandler (env : Env) (authorizationHeader : String)
    (bind : Except GoError ChatCompletionRequest) : HandlerResult :=
  match env.Sscanf authorizationHeader with
  | Except.error err => { reply := classified err, calls := [] }
  | Except.ok openaiAPIKey =>
    match bind with
    | Except.error err => { reply := badRequest err, calls := [] }
    | Except.ok bound =>
      let req : ChatCompletionRequest := { bound with Model := "Qwen/Qwen2.5-7B-Instruct" }
      match req.ToGenaiMessages env.TextEmbeddingBgeM3 with
      | Except.error err => { reply := badRequest err, calls := [] }
      | Except.ok messages =>
        let client : OpenaiClient :=
          { authToken := openaiAPIKey, BaseURL := "https://api.siliconflow.cn/v1" }
        let model := env.chatToGenaiModel req
        let gemini := NewGeminiAdapter client model
        if !req.Stream then
          match gemini.GenerateContent env.backend req messages with
          | (call, Except.error err) => { reply := classified err, calls := [call] }
          | (call, Except.ok resp) =>
            { reply := Reply.json StatusOK (ReplyBody.completion resp), calls := [call] }
        else
          match gemini.GenerateStreamContent env.backend req messages with
          | (call, Except.error err) => { reply := classified err, calls := [call] }
          | (call, Except.ok dataChan) =>
            { reply := Reply.eventStream
                (ChatProxyStream env.marshalErr env.marshalData dataChan)
              calls := [call] }

/-- The function `EmbeddingProxyHandler`.  `authorizationHeader` is the header
of the request, `bind` what `c.ShouldBindJSON(req)` makes of its body. -/
def EmbeddingProxyHandler (env : Env) (authorizationHeader : String)
    (bind : Except GoError EmbeddingRequest) : HandlerResult :=
  match env.Sscanf authorizationHeader with
  | Except.error err => { reply := classified err, calls := [] }
  | Except.ok openaiAPIKey =>
    match bind with
    | Except.error err => { reply := badRequest err, calls := [] }
    | Except.ok bound =>
      let req : EmbeddingRequest := { bound with Model := env.TextEmbeddingBgeM3 }
      match req.ToGenaiMessages env.TextEmbeddingBgeM3 with
      | Except.error err => { reply := badRequest err, calls := [] }
      | Except.ok messages =>
        let client : OpenaiClient :=
          { authToken := openaiAPIKey, BaseURL := "https://api.siliconflow.cn/v1" }
        let model := env.embeddingToGenaiModel req
        let gemini := NewGeminiAdapter client model
        match gemini.GenerateEmbedding env.backend messages with
        | (call, none) => { reply := Reply.exited, calls := [call] }
        | (call, some (Except.error err)) => { reply := classified err, calls := [call] }
        | (call, some (Except.ok resp)) =>
          { reply := Reply.json StatusOK (ReplyBody.embedding resp), calls := [call] }

/-! ## Sample surroundings -/

/-- A backend that answers every chat completion with one fixed choice, every
stream request with `chunkStream`, and every embedding request with one vector. -/
def sampleBackend (chunkStream : List RecvResult) : Backend :=
  { CreateChatCompletion := fun _ request =>
      Except.ok
        { ID := "cmpl-1", Object := "chat.completion", Model := request.Model
          Choices := [{ Index := 0
                        Message := { Role := "assistant", Content := "hello" }
                        FinishReason := "stop" }] }
    CreateChatCompletionStream := fun _ _ => Except.ok chunkStream
    CreateEmbeddings := fun _ request =>
      Except.ok { Object := "list", Data := [[1, 2, 3]], Model := request.Model } }

/-- Surroundings in which the scan of the header accepts exactly
`Bearer sk-test`, the embedding model id is `BAAI/bge-m3`, and the backend is
`sampleBackend` with an empty stream. -/
def sampleEnv : Env :=
  { Sscanf := fun header =>
      if header = "Bearer sk-test" then Except.ok "sk-test"
      else Except.error (GoError.plain "input does not match format")
    TextEmbeddingBgeM3 := "BAAI/bge-m3"
    chatToGenaiModel := fun req => req.Model
    embeddingToGenaiModel := fun req => req.Model
    backend := sampleBackend []
    marshalErr := fun e => e.Message
    marshalData := fun r => r.ID }

/-! ## Proof-side descriptions of the relay -/

/-- The event sent for a chunk. -/
def okEvent (response : OpenaiChatCompletionStreamResponse) : ChatCompletionStreamResponse :=
  { Data := response, Err := none }

/-- The chunks among the results of a backend stream, in order. -/
def chunksOf : List RecvResult → List OpenaiChatCompletionStreamResponse
  | [] => []
  | RecvResult.chunk response :: rest => response :: chunksOf rest
  | RecvResult.fail _ :: rest => chunksOf rest

/-- The event sent for a read error other than end of stream. -/
def errEvent (err : GoError) : ChatCompletionStreamResponse :=
  { Data := {}
    Err := some { Code := GoAny.int StatusInternalServerError, Message := err.Error } }

/-- The events the relay sends on a backend stream, as a function of the stream alone. -/
def relayEvents : List RecvResult → List ChatCompletionStreamResponse
  | [] => []
  | RecvResult.fail err :: _ => if err.isEOF then [] else [errEvent err]
  | RecvResult.chunk response :: rest =>
    okEvent response :: (if firstChoiceFinished response then [] else relayEvents rest)

/-- The number of `Recv` calls the relay makes on a backend stream. -/
def relayReads : List RecvResult → Nat
  | [] => 1
  | RecvResult.fail _ :: _ => 1
  | RecvResult.chunk response :: rest =>
    if firstChoiceFinished response then 1 else relayReads rest + 1

/-- The results the relay leaves in the backend stream. -/
def relayUnread : List RecvResult → List RecvResult
  | [] => []
  | RecvResult.fail _ :: rest => rest
  | RecvResult.chunk response :: rest =>
    if firstChoiceFinished response then rest else relayUnread rest

/-- The frame the transport loop writes for one event. -/
def eventFrame (marshalErr : APIError → String)
    (marshalData : OpenaiChatCompletionStreamResponse → String)
    (data : ChatCompletionStreamResponse) : String :=
  match data.Err with
  | some e => "data: " ++ marshalErr e
  | none => "data: " ++ marshalData data.Data

/-! ## Sample chunks -/

/-- A chunk whose only choice has no finish reason. -/
def chunkA : OpenaiChatCompletionStreamResponse :=
  { ID := "a", Choices := [{ Index := 0, Delta := { Content := "Hel" } }] }

/-- A chunk whose first choice carries the finish reason `stop`. -/
def chunkB : OpenaiChatCompletionStreamResponse :=
  { ID := "b", Choices := [{ Index := 0, Delta := { Content := "lo" }, FinishReason := "stop" }] }

/-- A chunk whose first choice has no finish reason and whose second choice has one. -/
def chunkC : OpenaiChatCompletionStreamResponse :=
  { ID := "c"
    Choices := [{ Index := 0, Delta := { Content := "x" } },
                { Index := 1, Delta := { Content := "y" }, FinishReason := "stop" }] }

/-! ## Request translation -/

theorem toVisionGenaiContentLoop_eq (l : List ChatCompletionMessage)
    (acc : List OpenaiChatCompletionMessage) :
    toVisionGenaiContentLoop l acc
      = acc ++ l.map (fun m => ({ Role := m.Role, Content := m.Content } :
          OpenaiChatCompletionMessage)) := by
  induction l generalizing acc with
  | nil => simp [toVisionGenaiContentLoop]
  | cons m rest ih => simp [toVisionGenaiContentLoop, ih]

/-- C1: for a chat request whose model is not the embedding model id,
`ToGenaiMessages` succeeds, returns as many backend messages as there are
inbound messages, and at every position the returned message has the role and
content of the inbound message at that position. -/
theorem C1_ToGenaiMessages_preserves_messages (TextEmbeddingBgeM3 : String)
    (req : ChatCompletionRequest) (hmodel : req.Model ≠ TextEmbeddingBgeM3) :
    ∃ msgs, req.ToGenaiMessages TextEmbeddingBgeM3 = Except.ok msgs
      ∧ msgs.length = req.Messages.length
      ∧ ∀ i : Nat, (msgs[i]?).map (fun m => (m.Role, m.Content))
          = (req.Messages[i]?).map (fun m => (m.Role, m.Content)) := by
  refine ⟨toVisionGenaiContentLoop req.Messages [], ?_, ?_, ?_⟩
  · simp [ChatCompletionRequest.ToGenaiMessages, ChatCompletionRequest.toVisionGenaiContent,
      hmodel]
  · simp [toVisionGenaiContentLoop_eq]
  · intro i
    simp only [toVisionGenaiContentLoop_eq, List.nil_append, List.getElem?_map, Option.map_map]
    rfl

/-- C1 at a request with two messages and at one with none. -/
theorem C1_ToGenaiMessages_preserves_messages_witness :
    (({ Model := "gpt-4", Messages := [⟨"system", "be brief"⟩, ⟨"user", "hi"⟩] } :
        ChatCompletionRequest).Model ≠ "BAAI/bge-m3")
      ∧ ∃ msgs, ({ Model := "gpt-4", Messages := [⟨"system", "be brief"⟩, ⟨"user", "hi"⟩] } :
          ChatCompletionRequest).ToGenaiMessages "BAAI/bge-m3" = Except.ok msgs
        ∧ msgs.length = 2
        ∧ ∀ i : Nat, (msgs[i]?).map (fun m => (m.Role, m.Content))
            = (([⟨"system", "be brief"⟩, ⟨"user", "hi"⟩] : List ChatCompletionMessage)[i]?).map
                (fun m => (m.Role, m.Content)) :=
  ⟨by decide,
    C1_ToGenaiMessages_preserves_messages "BAAI/bge-m3"
      { Model := "gpt-4", Messages := [⟨"system", "be brief"⟩, ⟨"user", "hi"⟩] } (by decide)⟩

/-! ## Response translation -/

/-- C2: `convertFinishReason` is defined on every backend finish reason; it
gives `length` for MaxTokens, `content_filter` for Safety and for Recitation,
`stop` for every other value, and so always one of those three strings. -/
theorem C2_convertFinishReason_table (reason : Int) :
    (reason = FinishReasonMaxTokens → convertFinishReason reason = "length")
      ∧ (reason = FinishReasonSafety ∨ reason = FinishReasonRecitation →
          convertFinishReason reason = "content_filter")
      ∧ (reason ≠ FinishReasonMaxTokens → reason ≠ FinishReasonSafety →
          reason ≠ FinishReasonRecitation → convertFinishReason reason = "stop")
      ∧ (convertFinishReason reason = "stop" ∨ convertFinishReason reason = "length"
          ∨ convertFinishReason reason = "content_filter") := by
  unfold convertFinishReason
  by_cases h2 : reason = FinishReasonMaxTokens
  · simp [h2, OpenaiFinishReasonLength, FinishReasonMaxTokens, FinishReasonSafety,
      FinishReasonRecitation]
  · by_cases h34 : reason = FinishReasonSafety ∨ reason = FinishReasonRecitation
    · rcases h34 with h | h <;>
        simp [h, OpenaiFinishReasonContentFilter, FinishReasonMaxTokens, FinishReasonSafety,
          FinishReasonRecitation]
    · have h3 : reason ≠ FinishReasonSafety := fun h => h34 (Or.inl h)
      have h4 : reason ≠ FinishReasonRecitation := fun h => h34 (Or.inr h)
      simp [h2, h3, h4, OpenaiFinishReasonStop]

/-- C2 on the six named reasons and on two values outside the enumeration. -/
theorem C2_convertFinishReason_table_witness :
    convertFinishReason FinishReasonMaxTokens = "length"
      ∧ convertFinishReason FinishReasonSafety = "content_filter"
      ∧ convertFinishReason FinishReasonRecitation = "content_filter"
      ∧ convertFinishReason FinishReasonUnspecified = "stop"
      ∧ convertFinishReason FinishReasonStop = "stop"
      ∧ convertFinishReason FinishReasonOther = "stop"
      ∧ convertFinishReason 6 = "stop"
      ∧ convertFinishReason (-1) = "stop" :=
  ⟨(C2_convertFinishReason_table FinishReasonMaxTokens).1 rfl,
    (C2_convertFinishReason_table FinishReasonSafety).2.1 (Or.inl rfl),
    (C2_convertFinishReason_table FinishReasonRecitation).2.1 (Or.inr rfl),
    (C2_convertFinishReason_table FinishReasonUnspecified).2.2.1
      (by decide) (by decide) (by decide),
    (C2_convertFinishReason_table FinishReasonStop).2.2.1 (by decide) (by decide) (by decide),
    (C2_convertFinishReason_table FinishReasonOther).2.2.1 (by decide) (by decide) (by decide),
    (C2_convertFinishReason_table 6).2.2.1 (by decide) (by decide) (by decide),
    (C2_convertFinishReason_table (-1)).2.2.1 (by decide) (by decide) (by decide)⟩

theorem genaiResponseToOpenaiResponseLoop_eq (cs : List Candidate) (i : Nat)
    (acc : List ChatCompletionChoice) :
    genaiResponseToOpenaiResponseLoop i cs acc
      = acc ++ (cs.enumFrom i).map (fun p =>
          ({ Index := p.1
             Message := { Role := ChatMessageRoleAssistant, Content := candidateContent p.2 }
             FinishReason := convertFinishReason p.2.FinishReason } : ChatCompletionChoice)) := by
  induction cs generalizing i acc with
  | nil => simp [genaiResponseToOpenaiResponseLoop]
  | cons c rest ih => simp [genaiResponseToOpenaiResponseLoop, ih, List.enumFrom]

theorem genaiResponseToOpenaiResponse_choice (GetMappedModel : String → String)
    (uuid : String) (now : Int) (model : String) (genaiResp : GenerateContentResponse)
    (i : Nat) :
    (genaiResponseToOpenaiResponse GetMappedModel uuid now model genaiResp).Choices[i]?
      = (genaiResp.Candidates[i]?).map (fun c =>
          ({ Index := i
             Message := { Role := ChatMessageRoleAssistant, Content := candidateContent c }
             FinishReason := convertFinishReason c.FinishReason } : ChatCompletionChoice)) := by
  simp only [genaiResponseToOpenaiResponse, genaiResponseToOpenaiResponseLoop_eq,
    List.nil_append, List.getElem?_map, List.getElem?_enumFrom, Option.map_map]
  cases genaiResp.Candidates[i]? <;> simp

/-- C3: `genaiResponseToOpenaiResponse` returns one choice per candidate, in
candidate order; the choice at position `i` has `Index = i`, the finish reason
`convertFinishReason` gives for the candidate, and as message content the text
of the candidate's first part when there is one and it is text, the empty
string when the candidate has no content, no part, or a first part without text. -/
theorem C3_genaiResponseToOpenaiResponse_choices (GetMappedModel : String → String)
    (uuid : String) (now : Int) (model : String) (genaiResp : GenerateContentResponse) :
    (genaiResponseToOpenaiResponse GetMappedModel uuid now model genaiResp).Choices.length
        = genaiResp.Candidates.length
      ∧ ∀ (i : Nat) (c : Candidate), genaiResp.Candidates[i]? = some c →
          ∃ choice,
            (genaiResponseToOpenaiResponse GetMappedModel uuid now model genaiResp).Choices[i]?
                = some choice
              ∧ choice.Index = i
              ∧ choice.FinishReason = convertFinishReason c.FinishReason
              ∧ (∀ ct s tl, c.Content = some ct → ct.Parts = Part.Text s :: tl →
                  choice.Message.Content = s)
              ∧ (c.Content = none → choice.Message.Content = "")
              ∧ (∀ ct, c.Content = some ct → ct.Parts = [] → choice.Message.Content = "")
              ∧ (∀ ct p tl, c.Content = some ct → ct.Parts = p :: tl →
                  (∀ s, p ≠ Part.Text s) → choice.Message.Content = "") := by
  refine ⟨?_, ?_⟩
  · simp [genaiResponseToOpenaiResponse, genaiResponseToOpenaiResponseLoop_eq]
  · intro i c hc
    refine ⟨{ Index := i
              Message := { Role := ChatMessageRoleAssistant, Content := candidateContent c }
              FinishReason := convertFinishReason c.FinishReason }, ?_, rfl, rfl, ?_, ?_, ?_, ?_⟩
    · rw [genaiResponseToOpenaiResponse_choice, hc]; rfl
    · intro ct s tl h1 h2
      simp [candidateContent, h1, h2]
    · intro h1
      simp [candidateContent, h1]
    · intro ct h1 h2
      simp [candidateContent, h1, h2]
    · intro ct p tl h1 h2 hp
      cases p with
      | Text s => exact absurd rfl (hp s)
      | Blob m d => simp [candidateContent, h1, h2]
      | FunctionCall n => simp [candidateContent, h1, h2]

/-- C3 at a response with a text candidate followed by a candidate without content. -/
theorem C3_genaiResponseToOpenaiResponse_choices_witness :
    ([{ Content := some { Parts := [Part.Text "hello", Part.Text "x"] }, FinishReason := 1 },
      { Content := none, FinishReason := 2 }] : List Candidate)[0]?
        = some { Content := some { Parts := [Part.Text "hello", Part.Text "x"] },
                 FinishReason := 1 }
      ∧ ∃ choice,
          (genaiResponseToOpenaiResponse id "u-1" 1700000000 "gpt-4"
              { Candidates :=
                  [{ Content := some { Parts := [Part.Text "hello", Part.Text "x"] },
                     FinishReason := 1 },
                   { Content := none, FinishReason := 2 }] }).Choices[0]? = some choice
            ∧ choice.Index = 0
            ∧ choice.FinishReason = "stop"
            ∧ choice.Message.Content = "hello" :=
  ⟨rfl,
    match (C3_genaiResponseToOpenaiResponse_choices id "u-1" 1700000000 "gpt-4"
        { Candidates :=
            [{ Content := some { Parts := [Part.Text "hello", Part.Text "x"] },
               FinishReason := 1 },
             { Content := none, FinishReason := 2 }] }).2 0
        { Content := some { Parts := [Part.Text "hello", Part.Text "x"] }, FinishReason := 1 }
        rfl with
    | ⟨choice, h1, h2, h3, h4, _⟩ =>
      ⟨choice, h1, h2, h3.trans (by decide),
        h4 { Parts := [Part.Text "hello", Part.Text "x"] } "hello" [Part.Text "x"] rfl rfl⟩⟩

/-! ## Stream relay -/

theorem handleStreamIterLoop_eq (l : List RecvResult) (st : Relay) :
    handleStreamIterLoop l st
      = { sent := st.sent ++ relayEvents l
          reads := st.reads + relayReads l
          unread := relayUnread l
          chanCloses := st.chanCloses
          streamCloses := st.streamCloses } := by
  induction l generalizing st with
  | nil => simp [handleStreamIterLoop, relayEvents, relayReads, relayUnread]
  | cons r rest ih =>
    cases r with
    | fail err =>
      by_cases h : err.isEOF = true
      · simp [handleStreamIterLoop, relayEvents, relayReads, relayUnread, h]
      · simp [handleStreamIterLoop, relayEvents, relayReads, relayUnread, h, errEvent]
    | chunk response =>
      by_cases h : firstChoiceFinished response = true
      · simp [handleStreamIterLoop, relayEvents, relayReads, relayUnread, h, okEvent]
      · simp [handleStreamIterLoop, relayEvents, relayReads, relayUnread, h, okEvent, ih]
        omega

theorem handleStreamIter_eq (l : List RecvResult) :
    handleStreamIter l
      = { sent := relayEvents l
          reads := relayReads l
          unread := relayUnread l
          chanCloses := 1
          streamCloses := 1 } := by
  simp [handleStreamIter, handleStreamIterLoop_eq]

theorem ChatProxyStream_eq (marshalErr : APIError → String)
    (marshalData : OpenaiChatCompletionStreamResponse → String)
    (evs : List ChatCompletionStreamResponse) :
    ChatProxyStream marshalErr marshalData evs
      = evs.map (eventFrame marshalErr marshalData) ++ ["data: [DONE]"] := by
  induction evs with
  | nil => simp [ChatProxyStream]
  | cons ev rest ih =>
    simp only [ChatProxyStream, ih, List.map_cons, List.cons_append, eventFrame]

theorem firstChoiceFinished_of_no_reason (c : OpenaiChatCompletionStreamResponse)
    (h : ∀ ch ∈ c.Choices, ch.FinishReason = "") : firstChoiceFinished c = false := by
  unfold firstChoiceFinished
  cases hc : c.Choices with
  | nil => rfl
  | cons ch tl =>
    have := h ch (by simp [hc])
    simp [this]

theorem relay_through_chunks (cs : List OpenaiChatCompletionStreamResponse)
    (tail : List RecvResult) (h : ∀ c ∈ cs, firstChoiceFinished c = false) :
    relayEvents (cs.map RecvResult.chunk ++ tail) = cs.map okEvent ++ relayEvents tail
      ∧ relayReads (cs.map RecvResult.chunk ++ tail) = cs.length + relayReads tail
      ∧ relayUnread (cs.map RecvResult.chunk ++ tail) = relayUnread tail := by
  induction cs with
  | nil => simp
  | cons c rest ih =>
    have hc : firstChoiceFinished c = false := h c (by simp)
    have ih1 := ih (fun x hx => h x (by simp [hx]))
    simp [relayEvents, relayReads, relayUnread, hc, ih1]
    omega

theorem relay_chunks_then_EOF (cs : List OpenaiChatCompletionStreamResponse) (e : GoError)
    (rest : List RecvResult) (hEOF : e.isEOF = true)
    (h : ∀ c ∈ cs.dropLast, firstChoiceFinished c = false) :
    relayEvents (cs.map RecvResult.chunk ++ RecvResult.fail e :: rest) = cs.map okEvent := by
  induction cs with
  | nil => simp [relayEvents, hEOF]
  | cons c tl ih =>
    cases tl with
    | nil =>
      by_cases hc : firstChoiceFinished c = true
      · simp [relayEvents, hc]
      · simp [relayEvents, hc, hEOF]
    | cons c2 tl2 =>
      have hc : firstChoiceFinished c = false := h c (by simp [List.dropLast])
      have ih1 := ih (fun x hx => h x (by simp [List.dropLast] at hx ⊢; exact Or.inr hx))
      simp only [List.map_cons, List.cons_append] at ih1 ⊢
      simp [relayEvents, hc]
      simpa [relayEvents] using ih1

/-- C4: on a backend stream of k chunks followed by end of stream, where no
chunk before the last carries a finish reason on any choice, the relay sends
exactly the k chunks as events without error, in order, and closes the channel
once; the transport loop then writes one `data: <json>` frame per chunk in that
order and one final `data: [DONE]` frame. -/
theorem C4_relay_chunks_then_done (marshalErr : APIError → String)
    (marshalData : OpenaiChatCompletionStreamResponse → String)
    (cs : List OpenaiChatCompletionStreamResponse) (e : GoError) (rest : List RecvResult)
    (hEOF : e.isEOF = true)
    (hfin : ∀ c ∈ cs.dropLast, ∀ ch ∈ c.Choices, ch.FinishReason = "") :
    (handleStreamIter (cs.map RecvResult.chunk ++ RecvResult.fail e :: rest)).sent
        = cs.map (fun c => { Data := c, Err := none })
      ∧ (handleStreamIter (cs.map RecvResult.chunk ++ RecvResult.fail e :: rest)).sent.length
        = cs.length
      ∧ (handleStreamIter (cs.map RecvResult.chunk ++ RecvResult.fail e :: rest)).chanCloses = 1
      ∧ ChatProxyStream marshalErr marshalData
          (handleStreamIter (cs.map RecvResult.chunk ++ RecvResult.fail e :: rest)).sent
        = cs.map (fun c => "data: " ++ marshalData c) ++ ["data: [DONE]"] := by
  have hev := relay_chunks_then_EOF cs e rest hEOF
    (fun c hc => firstChoiceFinished_of_no_reason c (hfin c hc))
  rw [handleStreamIter_eq]
  simp only [hev, ChatProxyStream_eq, List.length_map, List.map_map]
  refine ⟨rfl, trivial, trivial, ?_⟩
  congr 1

/-- C4 on the stream `chunkA, chunkB, EOF`, whose last chunk carries a finish reason. -/
theorem C4_relay_chunks_then_done_witness :
    GoError.eof.isEOF = true
      ∧ (∀ c ∈ [chunkA, chunkB].dropLast, ∀ ch ∈ c.Choices, ch.FinishReason = "")
      ∧ (handleStreamIter ([chunkA, chunkB].map RecvResult.chunk
            ++ RecvResult.fail GoError.eof :: [RecvResult.chunk chunkC])).sent
          = [chunkA, chunkB].map (fun c => { Data := c, Err := none })
      ∧ (handleStreamIter ([chunkA, chunkB].map RecvResult.chunk
            ++ RecvResult.fail GoError.eof :: [RecvResult.chunk chunkC])).sent.length
          = [chunkA, chunkB].length
      ∧ (handleStreamIter ([chunkA, chunkB].map RecvResult.chunk
            ++ RecvResult.fail GoError.eof :: [RecvResult.chunk chunkC])).chanCloses = 1
      ∧ ChatProxyStream (fun e => e.Message) (fun r => r.ID)
          (handleStreamIter ([chunkA, chunkB].map RecvResult.chunk
            ++ RecvResult.fail GoError.eof :: [RecvResult.chunk chunkC])).sent
        = [chunkA, chunkB].map (fun c => "data: " ++ c.ID) ++ ["data: [DONE]"] :=
  ⟨rfl, by decide,
    C4_relay_chunks_then_done (fun e => e.Message) (fun r => r.ID) [chunkA, chunkB] GoError.eof
      [RecvResult.chunk chunkC] rfl (by decide)⟩

/-- C5: on a backend stream of n chunks without finish reason followed by a
read error other than end of stream, the relay sends the n chunks as events
without error, in order, then one event with an error, then closes the
channel; it has then read the stream n + 1 times and whatever follows the
error is left unread. -/
theorem C5_relay_chunks_then_error (cs : List OpenaiChatCompletionStreamResponse)
    (e : GoError) (rest : List RecvResult) (hne : e.isEOF = false)
    (hfin : ∀ c ∈ cs, ∀ ch ∈ c.Choices, ch.FinishReason = "") :
    ∃ ev : ChatCompletionStreamResponse,
      (handleStreamIter (cs.map RecvResult.chunk ++ RecvResult.fail e :: rest)).sent
          = cs.map (fun c => { Data := c, Err := none }) ++ [ev]
        ∧ ev.Err ≠ none
        ∧ (handleStreamIter (cs.map RecvResult.chunk ++ RecvResult.fail e :: rest)).chanCloses = 1
        ∧ (handleStreamIter (cs.map RecvResult.chunk ++ RecvResult.fail e :: rest)).reads
          = cs.length + 1
        ∧ (handleStreamIter (cs.map RecvResult.chunk ++ RecvResult.fail e :: rest)).unread
          = rest := by
  have h := relay_through_chunks cs (RecvResult.fail e :: rest)
    (fun c hc => firstChoiceFinished_of_no_reason c (hfin c hc))
  refine ⟨errEvent e, ?_, ?_, ?_, ?_, ?_⟩
  · rw [handleStreamIter_eq]
    simp only [h.1, relayEvents, hne]
    rfl
  · simp [errEvent]
  · rw [handleStreamIter_eq]
  · rw [handleStreamIter_eq]
    simp [h.2.1, relayReads]
  · rw [handleStreamIter_eq]
    simp [h.2.2, relayUnread]

/-- C5 on the stream `chunkA, chunkA, error, chunkB`: two events, one error event,
three reads, `chunkB` left unread. -/
theorem C5_relay_chunks_then_error_witness :
    (GoError.plain "connection reset").isEOF = false
      ∧ (∀ c ∈ [chunkA, chunkA], ∀ ch ∈ c.Choices, ch.FinishReason = "")
      ∧ ∃ ev : ChatCompletionStreamResponse,
          (handleStreamIter ([chunkA, chunkA].map RecvResult.chunk
              ++ RecvResult.fail (GoError.plain "connection reset")
                :: [RecvResult.chunk chunkB])).sent
            = [chunkA, chunkA].map (fun c => { Data := c, Err := none }) ++ [ev]
          ∧ ev.Err ≠ none
          ∧ (handleStreamIter ([chunkA, chunkA].map RecvResult.chunk
              ++ RecvResult.fail (GoError.plain "connection reset")
                :: [RecvResult.chunk chunkB])).chanCloses = 1
          ∧ (handleStreamIter ([chunkA, chunkA].map RecvResult.chunk
              ++ RecvResult.fail (GoError.plain "connection reset")
                :: [RecvResult.chunk chunkB])).reads = [chunkA, chunkA].length + 1
          ∧ (handleStreamIter ([chunkA, chunkA].map RecvResult.chunk
              ++ RecvResult.fail (GoError.plain "connection reset")
                :: [RecvResult.chunk chunkB])).unread = [RecvResult.chunk chunkB] :=
  ⟨rfl, by decide,
    C5_relay_chunks_then_error [chunkA, chunkA] (GoError.plain "connection reset")
      [RecvResult.chunk chunkB] rfl (by decide)⟩

/-- C6, the claim as written fails: the second choice of `chunkC` carries a
finish reason, yet the relay goes on, reads the backend twice more and also
sends `chunkA`. -/
theorem C6_counterexample_second_choice_finished :
    (∃ ch ∈ chunkC.Choices, ch.FinishReason ≠ "")
      ∧ (handleStreamIter [RecvResult.chunk chunkC, RecvResult.chunk chunkA,
            RecvResult.fail GoError.eof]).sent
          = [{ Data := chunkC, Err := none }, { Data := chunkA, Err := none }]
      ∧ (handleStreamIter [RecvResult.chunk chunkC, RecvResult.chunk chunkA,
            RecvResult.fail GoError.eof]).sent
          ≠ [{ Data := chunkC, Err := none }]
      ∧ (handleStreamIter [RecvResult.chunk chunkC, RecvResult.chunk chunkA,
            RecvResult.fail GoError.eof]).reads = 3
      ∧ (handleStreamIter [RecvResult.chunk chunkC, RecvResult.chunk chunkA,
            RecvResult.fail GoError.eof]).unread = [] := by
  refine ⟨⟨{ Index := 1, Delta := { Content := "y" }, FinishReason := "stop" }, ?_, ?_⟩,
    ?_, ?_, ?_, ?_⟩ <;> decide

theorem firstChoiceFinished_eq_false_iff (c : OpenaiChatCompletionStreamResponse) :
    firstChoiceFinished c = false ↔ ∀ ch, c.Choices.head? = some ch → ch.FinishReason = "" := by
  unfold firstChoiceFinished
  cases c.Choices with
  | nil => simp
  | cons ch tl => simp

theorem firstChoiceFinished_eq_true_iff (c : OpenaiChatCompletionStreamResponse) :
    firstChoiceFinished c = true ↔ ∃ ch, c.Choices.head? = some ch ∧ ch.FinishReason ≠ "" := by
  unfold firstChoiceFinished
  cases c.Choices with
  | nil => simp
  | cons ch tl => simp

/-- C6 as amended: when the backend stream yields chunks whose first choice
has no finish reason and then a chunk whose first choice carries a non-empty
finish reason, the relay sends all of them as events without error, that chunk
last, and stops: it has read the stream once per chunk sent, whatever follows
stays unread and unsent, and the channel is closed once. -/
theorem C6_relay_stops_at_first_choice_finish (pre : List OpenaiChatCompletionStreamResponse)
    (c : OpenaiChatCompletionStreamResponse) (rest : List RecvResult)
    (hpre : ∀ p ∈ pre, ∀ ch, p.Choices.head? = some ch → ch.FinishReason = "")
    (hc : ∃ ch, c.Choices.head? = some ch ∧ ch.FinishReason ≠ "") :
    (handleStreamIter (pre.map RecvResult.chunk ++ RecvResult.chunk c :: rest)).sent
        = pre.map (fun p => { Data := p, Err := none }) ++ [{ Data := c, Err := none }]
      ∧ (handleStreamIter (pre.map RecvResult.chunk ++ RecvResult.chunk c :: rest)).reads
        = pre.length + 1
      ∧ (handleStreamIter (pre.map RecvResult.chunk ++ RecvResult.chunk c :: rest)).unread
        = rest
      ∧ (handleStreamIter (pre.map RecvResult.chunk ++ RecvResult.chunk c :: rest)).chanCloses
        = 1 := by
  have h := relay_through_chunks pre (RecvResult.chunk c :: rest)
    (fun p hp => (firstChoiceFinished_eq_false_iff p).2 (hpre p hp))
  have hfin : firstChoiceFinished c = true := (firstChoiceFinished_eq_true_iff c).2 hc
  rw [handleStreamIter_eq]
  refine ⟨?_, ?_, ?_, rfl⟩
  · simp only [h.1, relayEvents, hfin]
    rfl
  · simp [h.2.1, relayReads, hfin]
  · simp [h.2.2, relayUnread, hfin]

/-- C6 as amended, on the stream `chunkC, chunkA, chunkB, chunkA`: the first
choice of `chunkB` is the first to carry a finish reason. -/
theorem C6_relay_stops_at_first_choice_finish_witness :
    (∀ p ∈ [chunkC, chunkA], ∀ ch, p.Choices.head? = some ch → ch.FinishReason = "")
      ∧ (∃ ch, chunkB.Choices.head? = some ch ∧ ch.FinishReason ≠ "")
      ∧ (handleStreamIter ([chunkC, chunkA].map RecvResult.chunk
            ++ RecvResult.chunk chunkB :: [RecvResult.chunk chunkA])).sent
          = [chunkC, chunkA].map (fun p => { Data := p, Err := none })
              ++ [{ Data := chunkB, Err := none }]
      ∧ (handleStreamIter ([chunkC, chunkA].map RecvResult.chunk
            ++ RecvResult.chunk chunkB :: [RecvResult.chunk chunkA])).reads
          = [chunkC, chunkA].length + 1
      ∧ (handleStreamIter ([chunkC, chunkA].map RecvResult.chunk
            ++ RecvResult.chunk chunkB :: [RecvResult.chunk chunkA])).unread
          = [RecvResult.chunk chunkA]
      ∧ (handleStreamIter ([chunkC, chunkA].map RecvResult.chunk
            ++ RecvResult.chunk chunkB :: [RecvResult.chunk chunkA])).chanCloses = 1 :=
  have hpre : ∀ p ∈ [chunkC, chunkA], ∀ ch, p.Choices.head? = some ch → ch.FinishReason = "" := by
    intro p hp ch hch
    simp only [List.mem_cons, List.mem_singleton, List.not_mem_nil, or_false] at hp
    rcases hp with rfl | rfl
    · simp only [chunkC, List.head?_cons, Option.some.injEq] at hch
      rw [← hch]
    · simp only [chunkA, List.head?_cons, Option.some.injEq] at hch
      rw [← hch]
  have hc : ∃ ch, chunkB.Choices.head? = some ch ∧ ch.FinishReason ≠ "" :=
    ⟨{ Index := 0, Delta := { Content := "lo" }, FinishReason := "stop" }, rfl, by decide⟩
  ⟨hpre, hc,
    C6_relay_stops_at_first_choice_finish [chunkC, chunkA] chunkB [RecvResult.chunk chunkA]
      hpre hc⟩

theorem relayEvents_shape (stream : List RecvResult) :
    ∃ (n : Nat) (tail : List ChatCompletionStreamResponse),
      relayEvents stream = ((chunksOf stream).take n).map okEvent ++ tail
        ∧ tail.length ≤ 1
        ∧ tail.all (fun ev => ev.Err.isSome) = true := by
  induction stream with
  | nil => exact ⟨0, [], by simp [relayEvents], by simp, by simp⟩
  | cons r rest ih =>
    cases r with
    | fail err =>
      by_cases h : err.isEOF = true
      · exact ⟨0, [], by simp [relayEvents, h], by simp, by simp⟩
      · exact ⟨0, [errEvent err], by simp [relayEvents, h], by simp, by simp [errEvent]⟩
    | chunk response =>
      by_cases h : firstChoiceFinished response = true
      · exact ⟨1, [], by simp [relayEvents, h, chunksOf], by simp, by simp⟩
      · obtain ⟨n, tail, h1, h2, h3⟩ := ih
        exact ⟨n + 1, tail, by simp [relayEvents, h, chunksOf, h1], h2, h3⟩

/-- C7: whatever the backend stream returns, the events the relay sends are
the first n chunks of the stream for some n, each as its own event without
error and in the order of the stream, followed by at most one event with an
error, after which nothing is sent; the channel is closed once, and the
transport loop writes the frames of the events in the order sent and then
`data: [DONE]`. -/
theorem C7_relay_keeps_order (marshalErr : APIError → String)
    (marshalData : OpenaiChatCompletionStreamResponse → String) (stream : List RecvResult) :
    ∃ (n : Nat) (tail : List ChatCompletionStreamResponse),
      (handleStreamIter stream).sent
          = ((chunksOf stream).take n).map (fun c => { Data := c, Err := none }) ++ tail
        ∧ tail.length ≤ 1
        ∧ tail.all (fun ev => ev.Err.isSome) = true
        ∧ (handleStreamIter stream).chanCloses = 1
        ∧ ChatProxyStream marshalErr marshalData (handleStreamIter stream).sent
          = (handleStreamIter stream).sent.map (fun ev =>
              match ev.Err with
              | some e => "data: " ++ marshalErr e
              | none => "data: " ++ marshalData ev.Data) ++ ["data: [DONE]"] := by
  obtain ⟨n, tail, h1, h2, h3⟩ := relayEvents_shape stream
  refine ⟨n, tail, ?_, h2, h3, ?_, ?_⟩
  · rw [handleStreamIter_eq]
    exact h1
  · rw [handleStreamIter_eq]
  · rw [ChatProxyStream_eq]
    rfl

/-- C8, the code at a read error that is not end of stream: the one event
sent has the zero value as `Data` and an error with code 500 and the error
text as message, but the error's type is the empty string and not
`server_error`, the type the classifier `handleGenerateContentError` gives to
the same failure. -/
theorem C8_stream_error_event_type_empty :
    (handleStreamIter [RecvResult.fail (GoError.plain "connection reset")]).sent
        = [{ Data := {}
             Err := some { Code := GoAny.int 500, Message := "connection reset", Type_ := "" } }]
      ∧ (handleGenerateContentError (GoError.plain "connection reset")).body
        = { Code := GoAny.int 500, Message := "connection reset", Type_ := "server_error" } := by
  constructor <;> decide

/-! ## Error classifier -/

/-- C9, the code at an envelope whose code is no HTTP status: for the integer
1000, and for the integer 0, the classifier hands that integer as status to
`c.AbortWithStatusJSON` and does not fall back to 500; the type assertion on
the code is its only check, its range is never looked at. -/
theorem C9_out_of_range_code_passed_as_status :
    (handleGenerateContentError
        (GoError.api { Code := GoAny.int 1000, Message := "m", Type_ := "t" } "m")).status = 1000
      ∧ (handleGenerateContentError
        (GoError.api { Code := GoAny.int 1000, Message := "m", Type_ := "t" } "m")).status ≠ 500
      ∧ (handleGenerateContentError
        (GoError.api { Code := GoAny.int 0, Message := "m", Type_ := "t" } "m")).status = 0
      ∧ (handleGenerateContentError
        (GoError.api { Code := GoAny.int 0, Message := "m", Type_ := "t" } "m")).status ≠ 500 := by
  refine ⟨?_, ?_, ?_, ?_⟩ <;> decide

/-- What the envelope branch of the classifier computes: the body is the
envelope found in the chain, the status handed to `c.AbortWithStatusJSON` is
the envelope's code when the code holds a Go `int`, and 500 when it holds
anything else. -/
theorem handleGenerateContentError_envelope (err : GoError) (e : APIError)
    (henv : err.asAPIError = some e) :
    (handleGenerateContentError err).body = e
      ∧ (∀ n : Int, e.Code = GoAny.int n → (handleGenerateContentError err).status = n)
      ∧ ((∀ n : Int, e.Code ≠ GoAny.int n) → (handleGenerateContentError err).status = 500) := by
  have hr : handleGenerateContentError err
      = { status := (match e.Code with
                      | GoAny.int code => code
                      | _ => StatusInternalServerError)
          body := e } := by
    simp only [handleGenerateContentError, henv]
  rw [hr]
  refine ⟨rfl, ?_, ?_⟩
  · intro n hn
    simp only [hn]
  · intro hn
    cases hcode : e.Code with
    | int n => exact absurd hcode (hn n)
    | nil => rfl
    | string s => rfl
    | float64 b => rfl

/-- The envelope branch on a wrapped envelope with code 404: the body is the
envelope and the status is 404. -/
theorem handleGenerateContentError_envelope_example :
    (GoError.wrap "completion failed"
        (GoError.api { Code := GoAny.int 404, Message := "model not found",
                       Type_ := "invalid_request_error" } "model not found")).asAPIError
        = some { Code := GoAny.int 404, Message := "model not found",
                 Type_ := "invalid_request_error" }
      ∧ (handleGenerateContentError
          (GoError.wrap "completion failed"
            (GoError.api { Code := GoAny.int 404, Message := "model not found",
                           Type_ := "invalid_request_error" } "model not found"))).body
        = { Code := GoAny.int 404, Message := "model not found",
            Type_ := "invalid_request_error" }
      ∧ (handleGenerateContentError
          (GoError.wrap "completion failed"
            (GoError.api { Code := GoAny.int 404, Message := "model not found",
                           Type_ := "invalid_request_error" } "model not found"))).status
        = 404 :=
  ⟨rfl,
    (handleGenerateContentError_envelope
      (GoError.wrap "completion failed"
        (GoError.api { Code := GoAny.int 404, Message := "model not found",
                       Type_ := "invalid_request_error" } "model not found"))
      { Code := GoAny.int 404, Message := "model not found", Type_ := "invalid_request_error" }
      rfl).1,
    (handleGenerateContentError_envelope
      (GoError.wrap "completion failed"
        (GoError.api { Code := GoAny.int 404, Message := "model not found",
                       Type_ := "invalid_request_error" } "model not found"))
      { Code := GoAny.int 404, Message := "model not found", Type_ := "invalid_request_error" }
      rfl).2.1 404 rfl⟩

/-- C10: for a failure that holds no API error envelope but is or wraps a
backend transport or quota error with code N and message m, the classifier
answers, when N = 429, with status 429 and the fixed error of code 429,
message `Rate limit exceeded` and type `rate_limit_error`, whatever m is; for
every other N it answers with status N and an error of code N and message m. -/
theorem C10_google_error_classified (err : GoError) (g : GoogleError)
    (hnoenv : err.asAPIError = none) (hgoogle : err.asGoogleError = some g) :
    (g.Code = 429 →
        handleGenerateContentError err
          = { status := 429
              body := { Code := GoAny.int 429, Message := "Rate limit exceeded",
                        Type_ := "rate_limit_error" } })
      ∧ (g.Code ≠ 429 →
          (handleGenerateContentError err).status = g.Code
            ∧ (handleGenerateContentError err).body.Code = GoAny.int g.Code
            ∧ (handleGenerateContentError err).body.Message = g.Message) := by
  unfold handleGenerateContentError
  simp only [hnoenv, hgoogle, StatusTooManyRequests]
  refine ⟨?_, ?_⟩
  · intro h
    simp [h]
  · intro h
    simp [h]

/-- C10 on a wrapped transport error with code 429 and on one with code 503. -/
theorem C10_google_error_classified_witness :
    (GoError.wrap "call failed"
        (GoError.google { Code := 429, Message := "Quota exceeded for project 17" }
          "googleapi: Error 429")).asAPIError = none
      ∧ handleGenerateContentError
          (GoError.wrap "call failed"
            (GoError.google { Code := 429, Message := "Quota exceeded for project 17" }
              "googleapi: Error 429"))
        = { status := 429
            body := { Code := GoAny.int 429, Message := "Rate limit exceeded",
                      Type_ := "rate_limit_error" } }
      ∧ (handleGenerateContentError
          (GoError.google { Code := 503, Message := "backend unavailable" }
            "googleapi: Error 503")).status = 503
      ∧ (handleGenerateContentError
          (GoError.google { Code := 503, Message := "backend unavailable" }
            "googleapi: Error 503")).body.Message = "backend unavailable" :=
  ⟨rfl,
    (C10_google_error_classified
      (GoError.wrap "call failed"
        (GoError.google { Code := 429, Message := "Quota exceeded for project 17" }
          "googleapi: Error 429"))
      { Code := 429, Message := "Quota exceeded for project 17" } rfl rfl).1 rfl,
    ((C10_google_error_classified
      (GoError.google { Code := 503, Message := "backend unavailable" } "googleapi: Error 503")
      { Code := 503, Message := "backend unavailable" } rfl rfl).2 (by decide)).1,
    ((C10_google_error_classified
      (GoError.google { Code := 503, Message := "backend unavailable" } "googleapi: Error 503")
      { Code := 503, Message := "backend unavailable" } rfl rfl).2 (by decide)).2.2⟩

theorem handleGenerateContentError_unclassified (err : GoError)
    (hnoenv : err.asAPIError = none) (hnogoogle : err.asGoogleError = none) :
    handleGenerateContentError err
      = { status := 500
          body := { Code := GoAny.int 500, Message := err.Error, Type_ := "server_error" } } := by
  simp only [handleGenerateContentError, hnoenv, hnogoogle]
  rfl

/-- C11: a failure that holds neither an API error envelope nor a backend
transport or quota error is answered with status 500 and the error of code
500, type `server_error` and the failure's own error text; this is also the
answer of both proxy handlers, without any backend call, when the scan of the
bearer token fails with such a failure.  The order is envelope, transport,
unclassified: a chain that holds an envelope is answered with the envelope
even if it also holds a transport error, and a chain without envelope that
holds a transport error is answered with the transport error's code. -/
theorem C11_unclassified_and_first_match (err : GoError) :
    (err.asAPIError = none → err.asGoogleError = none →
        handleGenerateContentError err
            = { status := 500
                body := { Code := GoAny.int 500, Message := err.Error,
                          Type_ := "server_error" } }
          ∧ (∀ (env : Env) (header : String) (bind : Except GoError ChatCompletionRequest),
              env.Sscanf header = Except.error err →
              ChatProxyHandler env header bind
                = { reply := Reply.json 500
                      (ReplyBody.apiError
                        { Code := GoAny.int 500, Message := err.Error, Type_ := "server_error" })
                    calls := [] })
          ∧ (∀ (env : Env) (header : String) (bind : Except GoError EmbeddingRequest),
              env.Sscanf header = Except.error err →
              EmbeddingProxyHandler env header bind
                = { reply := Reply.json 500
                      (ReplyBody.apiError
                        { Code := GoAny.int 500, Message := err.Error, Type_ := "server_error" })
                    calls := [] }))
      ∧ (∀ e : APIError, err.asAPIError = some e → (handleGenerateContentError err).body = e)
      ∧ (∀ g : GoogleError, err.asAPIError = none → err.asGoogleError = some g →
          (handleGenerateContentError err).status = g.Code
            ∧ (handleGenerateContentError err).body.Code = GoAny.int g.Code) := by
  refine ⟨?_, ?_, ?_⟩
  · intro h1 h2
    have hr := handleGenerateContentError_unclassified err h1 h2
    refine ⟨hr, ?_, ?_⟩
    · intro env header bind hscan
      simp only [ChatProxyHandler, hscan, classified, hr]
    · intro env header bind hscan
      simp only [EmbeddingProxyHandler, hscan, classified, hr]
  · intro e he
    simp only [handleGenerateContentError, he]
  · intro g h1 h2
    by_cases h429 : g.Code = 429
    · simp [handleGenerateContentError, h1, h2, h429, StatusTooManyRequests]
    · simp [handleGenerateContentError, h1, h2, h429, StatusTooManyRequests]

/-- C11 on the failure of the header scan in `sampleEnv`, and on a transport
error that wraps an envelope with code 404. -/
theorem C11_unclassified_and_first_match_witness :
    (GoError.plain "input does not match format").asAPIError = none
      ∧ (GoError.plain "input does not match format").asGoogleError = none
      ∧ sampleEnv.Sscanf "Basic abc" = Except.error (GoError.plain "input does not match format")
      ∧ ChatProxyHandler sampleEnv "Basic abc"
            (Except.ok { Model := "gpt-4", Messages := [⟨"user", "hi"⟩] })
          = { reply := Reply.json 500
                (ReplyBody.apiError
                  { Code := GoAny.int 500, Message := "input does not match format",
                    Type_ := "server_error" })
              calls := [] }
      ∧ (GoError.googleWrap { Code := 503, Message := "unavailable" } "googleapi: Error 503"
            (GoError.api { Code := GoAny.int 404, Message := "model not found" }
              "model not found")).asGoogleError
          = some { Code := 503, Message := "unavailable" }
      ∧ (handleGenerateContentError
          (GoError.googleWrap { Code := 503, Message := "unavailable" } "googleapi: Error 503"
            (GoError.api { Code := GoAny.int 404, Message := "model not found" }
              "model not found"))).body
          = { Code := GoAny.int 404, Message := "model not found" } :=
  ⟨rfl, rfl, rfl,
    ((C11_unclassified_and_first_match (GoError.plain "input does not match format")).1
      rfl rfl).2.1 sampleEnv "Basic abc"
        (Except.ok { Model := "gpt-4", Messages := [⟨"user", "hi"⟩] }) rfl,
    rfl,
    (C11_unclassified_and_first_match
      (GoError.googleWrap { Code := 503, Message := "unavailable" } "googleapi: Error 503"
        (GoError.api { Code := GoAny.int 404, Message := "model not found" }
          "model not found"))).2.1
      { Code := GoAny.int 404, Message := "model not found" } rfl⟩

/-! ## Embedding translation -/

/-- C12: `EmbeddingRequest.ToGenaiMessages` returns an error exactly when the
request's model differs from `TextEmbeddingBgeM3`; when the model is that id it
returns a backend request, and a backend request it returns has the inbound
input list, the inbound model and the inbound encoding format. -/
theorem C12_embedding_ToGenaiMessages (TextEmbeddingBgeM3 : String) (req : EmbeddingRequest) :
    ((∃ err, req.ToGenaiMessages TextEmbeddingBgeM3 = Except.error err)
        ↔ req.Model ≠ TextEmbeddingBgeM3)
      ∧ (req.Model = TextEmbeddingBgeM3 →
          ∃ out, req.ToGenaiMessages TextEmbeddingBgeM3 = Except.ok out)
      ∧ (∀ out, req.ToGenaiMessages TextEmbeddingBgeM3 = Except.ok out →
          out.Input = req.Messages ∧ out.Model = req.Model
            ∧ out.EncodingFormat = req.EncodingFormat) := by
  by_cases h : req.Model = TextEmbeddingBgeM3
  · refine ⟨?_, ?_, ?_⟩
    · simp [EmbeddingRequest.ToGenaiMessages, h]
    · intro _
      exact ⟨{ Input := req.Messages, Model := req.Model,
               EncodingFormat := req.EncodingFormat },
        by simp [EmbeddingRequest.ToGenaiMessages, h]⟩
    · intro out hout
      simp only [EmbeddingRequest.ToGenaiMessages, h, ne_eq, not_true_eq_false, if_false,
        Except.ok.injEq] at hout
      subst hout
      simp [h]
  · refine ⟨?_, ?_, ?_⟩
    · simp [EmbeddingRequest.ToGenaiMessages, h]
    · intro h2
      exact absurd h2 h
    · intro out hout
      simp [EmbeddingRequest.ToGenaiMessages, h] at hout

/-- C12 on a request for the supported model and on one for another model. -/
theorem C12_embedding_ToGenaiMessages_witness :
    (∃ out, ({ Model := "BAAI/bge-m3", Messages := ["a", "b"], EncodingFormat := "float" } :
          EmbeddingRequest).ToGenaiMessages "BAAI/bge-m3" = Except.ok out)
      ∧ (∃ err, ({ Model := "text-embedding-ada-002", Messages := ["a"] } :
          EmbeddingRequest).ToGenaiMessages "BAAI/bge-m3" = Except.error err) :=
  ⟨(C12_embedding_ToGenaiMessages "BAAI/bge-m3"
      { Model := "BAAI/bge-m3", Messages := ["a", "b"], EncodingFormat := "float" }).2.1 rfl,
    (C12_embedding_ToGenaiMessages "BAAI/bge-m3"
      { Model := "text-embedding-ada-002", Messages := ["a"] }).1.2 (by decide)⟩

/-! ## The proxy handlers -/

/-- C13, the claim as written fails: a request with a valid bearer token and
the model `text-embedding-ada-002`, which is not the supported id
`BAAI/bge-m3`, is not answered with a 400 error; the handler calls the backend
once, with the supported id in place of the client's model, and answers 200. -/
theorem C13_counterexample_model_replaced :
    ("text-embedding-ada-002" ≠ sampleEnv.TextEmbeddingBgeM3)
      ∧ EmbeddingProxyHandler sampleEnv "Bearer sk-test"
          (Except.ok { Model := "text-embedding-ada-002", Messages := ["hi"] })
        = { reply := Reply.json 200
              (ReplyBody.embedding
                { Object := "list", Data := [[1, 2, 3]], Model := "BAAI/bge-m3" })
            calls := [BackendCall.embeddings
              { authToken := "sk-test", BaseURL := "https://api.siliconflow.cn/v1" }
              { Input := ["hi"], Model := "BAAI/bge-m3" }] } := by
  constructor <;> decide

/-- C13 as amended: for every embedding request that reaches the handler with
a bearer token the scan accepts and a well-formed body, whatever its model
field, the handler puts the supported embedding model id in place of the
client's model before translating; it therefore answers as it does for the
same request naming the supported id, makes exactly one backend embedding
call, with the supported id, the client's input list and the client's
encoding format, and answers 200 with the backend's response when that call
succeeds. -/
theorem C13_embedding_model_overwritten (env : Env) (header key : String)
    (bound : EmbeddingRequest) (hkey : env.Sscanf header = Except.ok key) :
    EmbeddingProxyHandler env header (Except.ok bound)
        = EmbeddingProxyHandler env header
            (Except.ok { bound with Model := env.TextEmbeddingBgeM3 })
      ∧ (EmbeddingProxyHandler env header (Except.ok bound)).calls
        = [BackendCall.embeddings
            { authToken := key, BaseURL := "https://api.siliconflow.cn/v1" }
            { Input := bound.Messages, Model := env.TextEmbeddingBgeM3,
              EncodingFormat := bound.EncodingFormat }]
      ∧ (∀ resp,
          env.backend.CreateEmbeddings
              { authToken := key, BaseURL := "https://api.siliconflow.cn/v1" }
              { Input := bound.Messages, Model := env.TextEmbeddingBgeM3,
                EncodingFormat := bound.EncodingFormat } = Except.ok resp →
          (EmbeddingProxyHandler env header (Except.ok bound)).reply
            = Reply.json 200 (ReplyBody.embedding resp)) := by
  refine ⟨rfl, ?_, ?_⟩
  · simp only [EmbeddingProxyHandler, hkey, EmbeddingRequest.ToGenaiMessages, ne_eq,
      not_true_eq_false, if_false, GeminiAdapter.GenerateEmbedding, NewGeminiAdapter]
    cases env.backend.CreateEmbeddings
        { authToken := key, BaseURL := "https://api.siliconflow.cn/v1" }
        { Input := bound.Messages, Model := env.TextEmbeddingBgeM3,
          EncodingFormat := bound.EncodingFormat } <;> rfl
  · intro resp hresp
    simp only [EmbeddingProxyHandler, hkey, EmbeddingRequest.ToGenaiMessages, ne_eq,
      not_true_eq_false, if_false, GeminiAdapter.GenerateEmbedding, NewGeminiAdapter, hresp]
    rfl

/-- C13 as amended, in `sampleEnv` on a request for `text-embedding-ada-002`. -/
theorem C13_embedding_model_overwritten_witness :
    sampleEnv.Sscanf "Bearer sk-test" = Except.ok "sk-test"
      ∧ (EmbeddingProxyHandler sampleEnv "Bearer sk-test"
          (Except.ok { Model := "text-embedding-ada-002", Messages := ["hi"] })).calls
        = [BackendCall.embeddings
            { authToken := "sk-test", BaseURL := "https://api.siliconflow.cn/v1" }
            { Input := ["hi"], Model := sampleEnv.TextEmbeddingBgeM3, EncodingFormat := "" }] :=
  ⟨rfl,
    (C13_embedding_model_overwritten sampleEnv "Bearer sk-test" "sk-test"
      { Model := "text-embedding-ada-002", Messages := ["hi"] } rfl).2.1⟩

/-- C14: for a chat request whose model is the embedding model id, whatever
its messages, `ToGenaiMessages` returns the error `Chat Completion is not
supported for embedding model` and no message list. -/
theorem C14_chat_rejects_embedding_model (TextEmbeddingBgeM3 : String)
    (req : ChatCompletionRequest) (hmodel : req.Model = TextEmbeddingBgeM3) :
    req.ToGenaiMessages TextEmbeddingBgeM3
        = Except.error (GoError.plain "Chat Completion is not supported for embedding model")
      ∧ ∀ msgs, req.ToGenaiMessages TextEmbeddingBgeM3 ≠ Except.ok msgs := by
  have h : req.ToGenaiMessages TextEmbeddingBgeM3
      = Except.error (GoError.plain "Chat Completion is not supported for embedding model") := by
    simp [ChatCompletionRequest.ToGenaiMessages, hmodel]
  refine ⟨h, ?_⟩
  intro msgs hok
  rw [h] at hok
  cases hok

/-- C14 on a request for `BAAI/bge-m3` with one message. -/
theorem C14_chat_rejects_embedding_model_witness :
    ({ Model := "BAAI/bge-m3", Messages := [⟨"user", "hi"⟩] } : ChatCompletionRequest).Model
        = "BAAI/bge-m3"
      ∧ ({ Model := "BAAI/bge-m3", Messages := [⟨"user", "hi"⟩] } :
            ChatCompletionRequest).ToGenaiMessages "BAAI/bge-m3"
          = Except.error
              (GoError.plain "Chat Completion is not supported for embedding model") :=
  ⟨rfl,
    (C14_chat_rejects_embedding_model "BAAI/bge-m3"
      { Model := "BAAI/bge-m3", Messages := [⟨"user", "hi"⟩] } rfl).1⟩

theorem ChatProxyHandler_calls (env : Env) (header key : String)
    (bound : ChatCompletionRequest) (hkey : env.Sscanf header = Except.ok key)
    (hemb : env.TextEmbeddingBgeM3 ≠ "Qwen/Qwen2.5-7B-Instruct") :
    (ChatProxyHandler env header (Except.ok bound)).calls
      = [if bound.Stream then
            BackendCall.chatCompletionStream
              { authToken := key, BaseURL := "https://api.siliconflow.cn/v1" }
              { Model := "Qwen/Qwen2.5-7B-Instruct"
                Messages := toVisionGenaiContentLoop bound.Messages []
                Stream := true }
          else
            BackendCall.chatCompletion
              { authToken := key, BaseURL := "https://api.siliconflow.cn/v1" }
              { Model := "Qwen/Qwen2.5-7B-Instruct"
                Messages := toVisionGenaiContentLoop bound.Messages []
                Stream := false }] := by
  have hne : ¬ ("Qwen/Qwen2.5-7B-Instruct" = env.TextEmbeddingBgeM3) := fun h => hemb h.symm
  cases hstream : bound.Stream with
  | false =>
    simp only [ChatProxyHandler, hkey, ChatCompletionRequest.ToGenaiMessages,
      ChatCompletionRequest.toVisionGenaiContent, hne, if_false, hstream,
      GeminiAdapter.GenerateContent, NewGeminiAdapter, Bool.not_false, if_true]
    cases env.backend.CreateChatCompletion
        { authToken := key, BaseURL := "https://api.siliconflow.cn/v1" }
        { Model := "Qwen/Qwen2.5-7B-Instruct"
          Messages := toVisionGenaiContentLoop bound.Messages []
          Stream := false } <;> rfl
  | true =>
    simp only [ChatProxyHandler, hkey, ChatCompletionRequest.ToGenaiMessages,
      ChatCompletionRequest.toVisionGenaiContent, hne, if_false, hstream,
      GeminiAdapter.GenerateStreamContent, NewGeminiAdapter, Bool.not_true]
    cases env.backend.CreateChatCompletionStream
        { authToken := key, BaseURL := "https://api.siliconflow.cn/v1" }
        { Model := "Qwen/Qwen2.5-7B-Instruct"
          Messages := toVisionGenaiContentLoop bound.Messages []
          Stream := true } <;> rfl

theorem ChatProxyHandler_calls_nil_of_embedding_id (env : Env) (header : String)
    (bound : ChatCompletionRequest)
    (hemb : env.TextEmbeddingBgeM3 = "Qwen/Qwen2.5-7B-Instruct") :
    (ChatProxyHandler env header (Except.ok bound)).calls = [] := by
  cases hs : env.Sscanf header with
  | error err => simp only [ChatProxyHandler, hs]
  | ok key =>
    simp only [ChatProxyHandler, hs, ChatCompletionRequest.ToGenaiMessages, hemb, if_true]

/-- C15: two well-formed chat requests that differ only in their model field
are handled alike by `ChatProxyHandler`, backend call included; every backend
call the handler makes carries the model `Qwen/Qwen2.5-7B-Instruct`, and when
the bearer token is accepted (and that id is not the embedding model id) the
handler makes exactly one call, with that model, the translated messages and
the stream flag of the body. -/
theorem C15_chat_backend_model_fixed (env : Env) (header : String)
    (bound : ChatCompletionRequest) (m1 m2 : String) :
    ChatProxyHandler env header (Except.ok { bound with Model := m1 })
        = ChatProxyHandler env header (Except.ok { bound with Model := m2 })
      ∧ (∀ call ∈ (ChatProxyHandler env header (Except.ok bound)).calls,
          ∃ client request,
            (call = BackendCall.chatCompletion client request
                ∨ call = BackendCall.chatCompletionStream client request)
              ∧ request.Model = "Qwen/Qwen2.5-7B-Instruct")
      ∧ (∀ key, env.Sscanf header = Except.ok key →
          env.TextEmbeddingBgeM3 ≠ "Qwen/Qwen2.5-7B-Instruct" →
          (ChatProxyHandler env header (Except.ok bound)).calls
            = [if bound.Stream then
                  BackendCall.chatCompletionStream
                    { authToken := key, BaseURL := "https://api.siliconflow.cn/v1" }
                    { Model := "Qwen/Qwen2.5-7B-Instruct"
                      Messages := toVisionGenaiContentLoop bound.Messages []
                      Stream := true }
                else
                  BackendCall.chatCompletion
                    { authToken := key, BaseURL := "https://api.siliconflow.cn/v1" }
                    { Model := "Qwen/Qwen2.5-7B-Instruct"
                      Messages := toVisionGenaiContentLoop bound.Messages []
                      Stream := false }]) := by
  refine ⟨rfl, ?_, fun key hkey hemb => ChatProxyHandler_calls env header key bound hkey hemb⟩
  intro call hcall
  cases hs : env.Sscanf header with
  | error err =>
    simp only [ChatProxyHandler, hs, List.not_mem_nil] at hcall
  | ok key =>
    by_cases hemb : env.TextEmbeddingBgeM3 = "Qwen/Qwen2.5-7B-Instruct"
    · rw [ChatProxyHandler_calls_nil_of_embedding_id env header bound hemb] at hcall
      simp at hcall
    · rw [ChatProxyHandler_calls env header key bound hs hemb] at hcall
      simp only [List.mem_singleton] at hcall
      cases hstream : bound.Stream with
      | false =>
        simp only [hstream, Bool.false_eq_true, if_false] at hcall
        exact ⟨_, _, Or.inl hcall, rfl⟩
      | true =>
        simp only [hstream, if_true] at hcall
        exact ⟨_, _, Or.inr hcall, rfl⟩

/-- C15 in `sampleEnv`: a request naming `gpt-4` and one naming `gpt-3.5-turbo`
both lead to the one call with model `Qwen/Qwen2.5-7B-Instruct`. -/
theorem C15_chat_backend_model_fixed_witness :
    sampleEnv.Sscanf "Bearer sk-test" = Except.ok "sk-test"
      ∧ sampleEnv.TextEmbeddingBgeM3 ≠ "Qwen/Qwen2.5-7B-Instruct"
      ∧ ChatProxyHandler sampleEnv "Bearer sk-test"
            (Except.ok { ({ Model := "", Messages := [⟨"user", "hi"⟩] } : ChatCompletionRequest)
                         with Model := "gpt-4" })
          = ChatProxyHandler sampleEnv "Bearer sk-test"
            (Except.ok { ({ Model := "", Messages := [⟨"user", "hi"⟩] } : ChatCompletionRequest)
                         with Model := "gpt-3.5-turbo" })
      ∧ (ChatProxyHandler sampleEnv "Bearer sk-test"
            (Except.ok { Model := "", Messages := [⟨"user", "hi"⟩] })).calls
          = [if ({ Model := "", Messages := [⟨"user", "hi"⟩] } : ChatCompletionRequest).Stream then
                BackendCall.chatCompletionStream
                  { authToken := "sk-test", BaseURL := "https://api.siliconflow.cn/v1" }
                  { Model := "Qwen/Qwen2.5-7B-Instruct"
                    Messages := toVisionGenaiContentLoop [⟨"user", "hi"⟩] []
                    Stream := true }
              else
                BackendCall.chatCompletion
                  { authToken := "sk-test", BaseURL := "https://api.siliconflow.cn/v1" }
                  { Model := "Qwen/Qwen2.5-7B-Instruct"
                    Messages := toVisionGenaiContentLoop [⟨"user", "hi"⟩] []
                    Stream := false }] :=
  ⟨rfl, by decide,
    (C15_chat_backend_model_fixed sampleEnv "Bearer sk-test"
      { Model := "", Messages := [⟨"user", "hi"⟩] } "gpt-4" "gpt-3.5-turbo").1,
    (C15_chat_backend_model_fixed sampleEnv "Bearer sk-test"
      { Model := "", Messages := [⟨"user", "hi"⟩] } "gpt-4" "gpt-3.5-turbo").2.2
      "sk-test" rfl (by decide)⟩

/-! ## Stream chunk translation -/

theorem genaiResponseToStreamCompletionResponseLoop_eq (cs : List Candidate) (i : Nat)
    (acc : List CompletionChoice) :
    genaiResponseToStreamCompletionResponseLoop i cs acc
      = acc ++ (cs.enumFrom i).map (fun p =>
          ({ Index := p.1
             Delta := { Content := candidateContent p.2 }
             FinishReason :=
               if p.2.FinishReason > FinishReasonStop then
                 some (convertFinishReason p.2.FinishReason)
               else none } : CompletionChoice)) := by
  induction cs generalizing i acc with
  | nil => simp [genaiResponseToStreamCompletionResponseLoop]
  | cons c rest ih =>
    by_cases h : c.FinishReason > FinishReasonStop
    · simp [genaiResponseToStreamCompletionResponseLoop, ih, List.enumFrom, h]
    · simp [genaiResponseToStreamCompletionResponseLoop, ih, List.enumFrom, h]

theorem genaiResponseToStreamCompletionResponse_choice (GetMappedModel : String → String)
    (model : String) (genaiResp : GenerateContentResponse) (respID : String) (created : Int)
    (i : Nat) :
    (genaiResponseToStreamCompletionResponse GetMappedModel model genaiResp respID
        created).Choices[i]?
      = (genaiResp.Candidates[i]?).map (fun c =>
          ({ Index := i
             Delta := { Content := candidateContent c }
             FinishReason :=
               if c.FinishReason > FinishReasonStop then
                 some (convertFinishReason c.FinishReason)
               else none } : CompletionChoice)) := by
  simp only [genaiResponseToStreamCompletionResponse,
    genaiResponseToStreamCompletionResponseLoop_eq, List.nil_append, List.getElem?_map,
    List.getElem?_enumFrom, Option.map_map]
  cases genaiResp.Candidates[i]? <;> simp

/-- C16: for a backend chunk with n candidates, a response id r and a creation
time t, `genaiResponseToStreamCompletionResponse` returns an envelope with
`ID` the string `chatcmpl-` followed by r, `Object` `chat.completion.chunk`,
`Created` t, and n choices in candidate order; the choice at position `i` has
`Index = i` and as delta content the text of the candidate's first part when
there is one and it is text, the empty string otherwise. -/
theorem C16_stream_chunk_envelope (GetMappedModel : String → String) (model : String)
    (genaiResp : GenerateContentResponse) (respID : String) (created : Int) :
    (genaiResponseToStreamCompletionResponse GetMappedModel model genaiResp respID created).ID
        = "chatcmpl-" ++ respID
      ∧ (genaiResponseToStreamCompletionResponse GetMappedModel model genaiResp respID
          created).Object = "chat.completion.chunk"
      ∧ (genaiResponseToStreamCompletionResponse GetMappedModel model genaiResp respID
          created).Created = created
      ∧ (genaiResponseToStreamCompletionResponse GetMappedModel model genaiResp respID
          created).Choices.length = genaiResp.Candidates.length
      ∧ ∀ (i : Nat) (c : Candidate), genaiResp.Candidates[i]? = some c →
          ∃ choice,
            (genaiResponseToStreamCompletionResponse GetMappedModel model genaiResp respID
                created).Choices[i]? = some choice
              ∧ choice.Index = i
              ∧ (∀ ct s tl, c.Content = some ct → ct.Parts = Part.Text s :: tl →
                  choice.Delta.Content = s)
              ∧ (c.Content = none → choice.Delta.Content = "")
              ∧ (∀ ct, c.Content = some ct → ct.Parts = [] → choice.Delta.Content = "")
              ∧ (∀ ct p tl, c.Content = some ct → ct.Parts = p :: tl →
                  (∀ s, p ≠ Part.Text s) → choice.Delta.Content = "") := by
  refine ⟨rfl, rfl, rfl, ?_, ?_⟩
  · simp [genaiResponseToStreamCompletionResponse,
      genaiResponseToStreamCompletionResponseLoop_eq]
  · intro i c hc
    refine ⟨{ Index := i
              Delta := { Content := candidateContent c }
              FinishReason :=
                if c.FinishReason > FinishReasonStop then
                  some (convertFinishReason c.FinishReason)
                else none }, ?_, rfl, ?_, ?_, ?_, ?_⟩
    · rw [genaiResponseToStreamCompletionResponse_choice, hc]; rfl
    · intro ct s tl h1 h2
      simp [candidateContent, h1, h2]
    · intro h1
      simp [candidateContent, h1]
    · intro ct h1 h2
      simp [candidateContent, h1, h2]
    · intro ct p tl h1 h2 hp
      cases p with
      | Text s => exact absurd rfl (hp s)
      | Blob m d => simp [candidateContent, h1, h2]
      | FunctionCall n => simp [candidateContent, h1, h2]

/-- C16 at a chunk with one text candidate. -/
theorem C16_stream_chunk_envelope_witness :
    ([{ Content := some { Parts := [Part.Text "Hel"] } }] : List Candidate)[0]?
        = some { Content := some { Parts := [Part.Text "Hel"] } }
      ∧ ∃ choice,
          (genaiResponseToStreamCompletionResponse id "gpt-4"
              { Candidates := [{ Content := some { Parts := [Part.Text "Hel"] } }] }
              "resp-7" 1700000000).Choices[0]? = some choice
            ∧ choice.Index = 0
            ∧ choice.Delta.Content = "Hel" :=
  ⟨rfl,
    match (C16_stream_chunk_envelope id "gpt-4"
        { Candidates := [{ Content := some { Parts := [Part.Text "Hel"] } }] }
        "resp-7" 1700000000).2.2.2.2 0
        { Content := some { Parts := [Part.Text "Hel"] } } rfl with
    | ⟨choice, h1, h2, h3, _⟩ =>
      ⟨choice, h1, h2, h3 { Parts := [Part.Text "Hel"] } "Hel" [] rfl rfl⟩⟩

/-- C17, the claim as written fails: for a candidate whose finish reason is
Stop, and for one whose finish reason is Unspecified, the choice of the stream
variant has no finish reason at all, not `stop`. -/
theorem C17_counterexample_stop_not_reported :
    (genaiResponseToStreamCompletionResponse id "gpt-4"
        { Candidates := [{ Content := some { Parts := [Part.Text "done"] },
                           FinishReason := FinishReasonStop },
                         { FinishReason := FinishReasonUnspecified }] }
        "resp-7" 1700000000).Choices
        = [{ Index := 0, Delta := { Content := "done" }, FinishReason := none },
           { Index := 1, Delta := { Content := "" }, FinishReason := none }]
      ∧ convertFinishReason FinishReasonStop = "stop"
      ∧ (∀ choice ∈ (genaiResponseToStreamCompletionResponse id "gpt-4"
            { Candidates := [{ Content := some { Parts := [Part.Text "done"] },
                               FinishReason := FinishReasonStop },
                             { FinishReason := FinishReasonUnspecified }] }
            "resp-7" 1700000000).Choices, choice.FinishReason ≠ some "stop") := by
  refine ⟨?_, ?_, ?_⟩ <;> decide

/-- C17 as amended: in the stream variant, a candidate whose backend finish
reason is above Stop gets as finish reason the value of the table, `length`
for MaxTokens, `content_filter` for Safety and for Recitation, `stop` for
every other such value; a candidate whose backend finish reason is Stop,
Unspecified or below gets no finish reason. -/
theorem C17_stream_finish_reason (GetMappedModel : String → String) (model : String)
    (genaiResp : GenerateContentResponse) (respID : String) (created : Int)
    (i : Nat) (c : Candidate) (hc : genaiResp.Candidates[i]? = some c) :
    ∃ choice,
      (genaiResponseToStreamCompletionResponse GetMappedModel model genaiResp respID
          created).Choices[i]? = some choice
        ∧ (c.FinishReason > FinishReasonStop →
            choice.FinishReason = some (convertFinishReason c.FinishReason))
        ∧ (c.FinishReason = FinishReasonMaxTokens → choice.FinishReason = some "length")
        ∧ (c.FinishReason = FinishReasonSafety ∨ c.FinishReason = FinishReasonRecitation →
            choice.FinishReason = some "content_filter")
        ∧ (c.FinishReason > FinishReasonRecitation → choice.FinishReason = some "stop")
        ∧ (c.FinishReason ≤ FinishReasonStop → choice.FinishReason = none) := by
  refine ⟨{ Index := i
            Delta := { Content := candidateContent c }
            FinishReason :=
              if c.FinishReason > FinishReasonStop then
                some (convertFinishReason c.FinishReason)
              else none }, ?_, ?_, ?_, ?_, ?_, ?_⟩
  · rw [genaiResponseToStreamCompletionResponse_choice, hc]; rfl
  · intro h
    simp only [h, if_true]
  · intro h
    simp only [h]
    decide
  · intro h
    rcases h with h | h <;> simp only [h] <;> decide
  · intro h
    have h1 : c.FinishReason > FinishReasonStop := by
      simp only [FinishReasonRecitation, FinishReasonStop] at h ⊢
      omega
    have h2 : c.FinishReason ≠ FinishReasonMaxTokens := by
      simp only [FinishReasonRecitation, FinishReasonMaxTokens] at h ⊢
      omega
    have h3 : c.FinishReason ≠ FinishReasonSafety := by
      simp only [FinishReasonRecitation, FinishReasonSafety] at h ⊢
      omega
    have h4 : c.FinishReason ≠ FinishReasonRecitation := by
      simp only [FinishReasonRecitation] at h ⊢
      omega
    simp only [h1, if_true, convertFinishReason, h2, h3, h4, if_false, or_self,
      OpenaiFinishReasonStop]
  · intro h
    have h1 : ¬ c.FinishReason > FinishReasonStop := not_lt.mpr h
    simp only [h1, if_false]

/-- C17 as amended, at a chunk whose candidate stopped for MaxTokens. -/
theorem C17_stream_finish_reason_witness :
    ([{ FinishReason := FinishReasonMaxTokens }] : List Candidate)[0]?
        = some { FinishReason := FinishReasonMaxTokens }
      ∧ ∃ choice,
          (genaiResponseToStreamCompletionResponse id "gpt-4"
              { Candidates := [{ FinishReason := FinishReasonMaxTokens }] }
              "resp-7" 1700000000).Choices[0]? = some choice
            ∧ choice.FinishReason = some "length" :=
  ⟨rfl,
    match C17_stream_finish_reason id "gpt-4"
        { Candidates := [{ FinishReason := FinishReasonMaxTokens }] } "resp-7" 1700000000 0
        { FinishReason := FinishReasonMaxTokens } rfl with
    | ⟨choice, h1, _, h3, _⟩ => ⟨choice, h1, h3 rfl⟩⟩

/-! ## Model retrieval and the backend request -/

/-- C18: for every model id given as the path parameter, `ModelRetrieveHandler`
answers with status 200 and a model descriptor whose `ID` is that very string,
whose `Object` is `model` and whose `CreatedAt` is 1686935002. -/
theorem C18_model_retrieve_echoes_id (owner : String) (m : String) :
    ∃ d : OpenaiModel,
      ModelRetrieveHandler owner m = Reply.json 200 (ReplyBody.model d)
        ∧ d.ID = m
        ∧ d.Object = "model"
        ∧ d.CreatedAt = 1686935002 :=
  ⟨{ CreatedAt := 1686935002, ID := m, Object := "model", OwnedBy := owner },
    rfl, rfl, rfl, rfl⟩

/-- C19: the backend call made by `GenerateContent` and the one made by
`GenerateStreamContent` carry the request's model, the message list given and
the fixed stream flag (false, respectively true), and every sampling field of
the backend request is at its zero value; so two chat requests that agree on
model and messages, whatever their MaxTokens, Temperature, TopP, N and Stop,
are translated alike and lead to the same backend call and the same result. -/
theorem C19_sampling_parameters_not_forwarded (TextEmbeddingBgeM3 : String)
    (g : GeminiAdapter) (backend : Backend) (req1 req2 : ChatCompletionRequest)
    (messages : List OpenaiChatCompletionMessage)
    (hmodel : req1.Model = req2.Model) (hmessages : req1.Messages = req2.Messages) :
    req1.ToGenaiMessages TextEmbeddingBgeM3 = req2.ToGenaiMessages TextEmbeddingBgeM3
      ∧ g.GenerateContent backend req1 messages = g.GenerateContent backend req2 messages
      ∧ g.GenerateStreamContent backend req1 messages
        = g.GenerateStreamContent backend req2 messages
      ∧ (g.GenerateContent backend req1 messages).1
        = BackendCall.chatCompletion g.client
            { Model := req1.Model, Messages := messages, MaxTokens := 0, Temperature := 0,
              TopP := 0, N := 0, Stream := false, Stop := [] }
      ∧ (g.GenerateStreamContent backend req1 messages).1
        = BackendCall.chatCompletionStream g.client
            { Model := req1.Model, Messages := messages, MaxTokens := 0, Temperature := 0,
              TopP := 0, N := 0, Stream := true, Stop := [] } := by
  refine ⟨?_, ?_, ?_, rfl, rfl⟩
  · simp only [ChatCompletionRequest.ToGenaiMessages,
      ChatCompletionRequest.toVisionGenaiContent, hmodel, hmessages]
  · simp only [GeminiAdapter.GenerateContent, hmodel]
  · simp only [GeminiAdapter.GenerateStreamContent, hmodel]

/-- C19 on two requests for the same model and messages, one with sampling
parameters set and one without. -/
theorem C19_sampling_parameters_not_forwarded_witness :
    ({ Model := "m", Messages := [⟨"user", "hi"⟩], MaxTokens := 16, Temperature := 1065353216,
       TopP := 1056964608, N := 3, Stop := ["."] } : ChatCompletionRequest).Model
        = ({ Model := "m", Messages := [⟨"user", "hi"⟩] } : ChatCompletionRequest).Model
      ∧ (NewGeminiAdapter { authToken := "sk-test", BaseURL := "u" } "m").GenerateContent
          (sampleBackend [])
          { Model := "m", Messages := [⟨"user", "hi"⟩], MaxTokens := 16,
            Temperature := 1065353216, TopP := 1056964608, N := 3, Stop := ["."] }
          [{ Role := "user", Content := "hi" }]
        = (NewGeminiAdapter { authToken := "sk-test", BaseURL := "u" } "m").GenerateContent
          (sampleBackend [])
          { Model := "m", Messages := [⟨"user", "hi"⟩] }
          [{ Role := "user", Content := "hi" }] :=
  ⟨rfl,
    (C19_sampling_parameters_not_forwarded "BAAI/bge-m3"
      (NewGeminiAdapter { authToken := "sk-test", BaseURL := "u" } "m") (sampleBackend [])
      { Model := "m", Messages := [⟨"user", "hi"⟩], MaxTokens := 16,
        Temperature := 1065353216, TopP := 1056964608, N := 3, Stop := ["."] }
      { Model := "m", Messages := [⟨"user", "hi"⟩] }
      [{ Role := "user", Content := "hi" }] rfl rfl).2.1⟩

end OpenaiProxy
